import Mathlib

/-!
Verification of the game-api-server repository (a TypeScript CRUD REST API for a
game marketplace) against its natural-language specification.

The relational database is embedded shallowly as lists of records; each model
function (`src/app/models/*.ts`) becomes a pure Lean function from a `DB` state
to an `Except String` result, where `Except.error msg` models a thrown
`Error(msg)` (and, because every SQL statement of a handler either all ran or
the handler threw before mutating, an error leaves the state unchanged).
Controller error-to-status mapping (`src/app/controllers/*.ts`) is embedded as
functions from error messages to HTTP status codes.

JavaScript strings are modelled by `String` viewed as its list of characters;
`trim`/`toUpperCase`/`includes`/`parseInt` are re-implemented on the character
list (ASCII range, which covers every string the code compares) so that all
definitions evaluate by kernel reduction.
-/

namespace GameApi

/-! ### Character-level models of the JavaScript string operations -/

/-- Whitespace recognised by `String.prototype.trim` (ASCII subset). -/
def isSpaceChar (c : Char) : Bool :=
  c == ' ' || c == '\t' || c == '\n' || c == '\r'

/-- ASCII model of `Char` upcasing as performed by `String.prototype.toUpperCase`. -/
def upperChar (c : Char) : Char :=
  if 'a' ≤ c ∧ c ≤ 'z' then Char.ofNat (c.toNat - 32) else c

/-- Model of `String.prototype.toUpperCase` (ASCII). -/
def strToUpper (s : String) : String :=
  ⟨s.data.map upperChar⟩

/-- Model of `String.prototype.trim` (ASCII whitespace). -/
def strTrim (s : String) : String :=
  ⟨((s.data.dropWhile isSpaceChar).reverse.dropWhile isSpaceChar).reverse⟩

/-- Does `pat` occur at the head of `l`? -/
def leadsWith : List Char → List Char → Bool
  | [], _ => true
  | _ :: _, [] => false
  | p :: ps, c :: cs => p == c && leadsWith ps cs

/-- Does `pat` occur contiguously anywhere in `l`? -/
def hasSubstr (pat : List Char) : List Char → Bool
  | [] => pat.isEmpty
  | c :: cs => leadsWith pat (c :: cs) || hasSubstr pat cs

/-- Model of `String.prototype.includes` (also of SQL `LIKE '%pat%'`). -/
def strIncludes (s pat : String) : Bool :=
  hasSubstr pat.data s.data

/-- Model of JavaScript `parseInt(s, 10)`: optional sign, then a non-empty
digit run (trailing garbage ignored); `none` models `NaN`. -/
def parseIntJS (s : String) : Option Int :=
  let t := (s.data.dropWhile isSpaceChar)
  let core : List Char → Option Nat := fun cs =>
    let ds := cs.takeWhile Char.isDigit
    if ds.isEmpty then none
    else some (ds.foldl (fun a c => a * 10 + (c.toNat - 48)) 0)
  match t with
  | '-' :: rest => (core rest).map (fun n => -(n : Int))
  | '+' :: rest => (core rest).map (fun n => (n : Int))
  | cs => (core cs).map (fun n => (n : Int))

/-- JavaScript truthiness of an optional string (`undefined`/`null`/`""` are falsy). -/
def jsTruthyStr : Option String → Bool
  | some s => s != ""
  | none => false

/-- JavaScript truthiness of an optional number (`undefined`/`null`/`0` are falsy). -/
def jsTruthyNat : Option Nat → Bool
  | some n => n != 0
  | none => false

deriving instance DecidableEq for Except

/-! ### Data model (tables of `create_database.sql`) -/

/-- Row of the `user` table. -/
structure User where
  id : Nat
  email : String
  firstName : String
  lastName : String
  password : String
  imageFilename : Option String
  authToken : Option String
deriving Repr, DecidableEq

/-- Row of the `game` table (`creation_date` as an abstract timestamp). -/
structure Game where
  id : Nat
  title : String
  description : String
  creationDate : Nat
  imageFilename : Option String
  creatorId : Nat
  genreId : Nat
  price : Nat
deriving Repr, DecidableEq

/-- Row of the `game_review` table. -/
structure Review where
  gameId : Nat
  userId : Nat
  rating : Int
  review : Option String
  timestamp : Nat
deriving Repr, DecidableEq

/-- The database state: `genre` and `platform` are kept as their id columns
(names never influence the verified behaviour); `game_platforms`, `wishlist`
and `owned` are lists of `(game_id, user_id)` resp. `(game_id, platform_id)`
pairs; `nextUserId`/`nextGameId` model the `AUTOINCREMENT` counters. -/
structure DB where
  users : List User
  genres : List Nat
  platforms : List Nat
  games : List Game
  gamePlatforms : List (Nat × Nat)
  wishlist : List (Nat × Nat)
  owned : List (Nat × Nat)
  reviews : List Review
  nextUserId : Nat
  nextGameId : Nat
deriving Repr, DecidableEq

/-! ### user.model.ts -/

/-- Model of `getUserByToken` (`SELECT id FROM user WHERE auth_token = ?`);
only the selected `id` column is returned. -/
def getUserByToken (db : DB) (token : String) : Option Nat :=
  (db.users.find? (fun u => u.authToken == some token)).map (·.id)

/-- Model of `updateUserToken` (`UPDATE user SET auth_token = ? WHERE id = ?`). -/
def updateUserToken (db : DB) (id : Nat) (token : Option String) : DB :=
  { db with users := db.users.map (fun u => if u.id == id then { u with authToken := token } else u) }

/-- Model of `createUser` (`INSERT INTO user ...`), returning the new id. -/
def createUser (db : DB) (firstName lastName email password : String) : DB × Nat :=
  let uid := db.nextUserId
  ({ db with
      users := db.users ++ [{ id := uid, email := email, firstName := firstName,
                              lastName := lastName, password := password,
                              imageFilename := none, authToken := none }],
      nextUserId := uid + 1 }, uid)

/-- Optional fields of a `updateUserDetails` call. -/
structure UserUpdate where
  firstName : Option String := none
  lastName : Option String := none
  email : Option String := none
  password : Option String := none
deriving Repr, DecidableEq

/-- Model of `updateUserDetails`: each field is written only when truthy
(the source guards with `if (data.firstName)` etc.). -/
def updateUserDetails (db : DB) (id : Nat) (data : UserUpdate) : DB :=
  let apply : User → User := fun u =>
    let u := if jsTruthyStr data.firstName then { u with firstName := data.firstName.getD u.firstName } else u
    let u := if jsTruthyStr data.lastName then { u with lastName := data.lastName.getD u.lastName } else u
    let u := if jsTruthyStr data.email then { u with email := data.email.getD u.email } else u
    if jsTruthyStr data.password then { u with password := data.password.getD u.password } else u
  { db with users := db.users.map (fun u => if u.id == id then apply u else u) }

/-! ### user.controller.ts (token issuing / logout) and user.middleware.ts -/

/-- Model of the token-issuing tail of the `login` controller: after the
bcrypt comparison succeeds for the user `userId`, a fresh random token
(abstracted as the argument `token`) is persisted on the user row. -/
def loginIssueToken (db : DB) (userId : Nat) (token : String) : DB :=
  updateUserToken db userId (some token)

/-- Model of the `logout` controller: looks the user up by the presented
token, responds 401 when none matches, otherwise nulls the stored token. -/
def logout (db : DB) (token : String) : Except String DB :=
  match getUserByToken db token with
  | none => .error "Unauthorized"
  | some uid => .ok (updateUserToken db uid none)

/-- Model of the `validateUserAuthToken` middleware: `.error 401` when the
`X-Authorization` header is absent or matches no stored token, otherwise the
authenticated user id. -/
def validateUserAuthToken (db : DB) (token : Option String) : Except Nat Nat :=
  match token with
  | none => .error 401
  | some t =>
    match getUserByToken db t with
    | none => .error 401
    | some uid => .ok uid

/-! ### game.action.model.ts (wishlist / owned) -/

/-- Model of `getGameCreatorId` (`SELECT creator_id FROM game WHERE id = ?`). -/
def getGameCreatorId (db : DB) (gameId : Nat) : Option Nat :=
  (db.games.find? (fun g => g.id == gameId)).map (·.creatorId)

/-- Model of `isGameOwnedByUser` (`SELECT 1 FROM owned WHERE user_id = ? AND game_id = ?`). -/
def isGameOwnedByUser (db : DB) (userId gameId : Nat) : Bool :=
  db.owned.any (fun p => p.2 == userId && p.1 == gameId)

/-- Model of `isGameWishlistedByUser`. -/
def isGameWishlistedByUser (db : DB) (userId gameId : Nat) : Bool :=
  db.wishlist.any (fun p => p.2 == userId && p.1 == gameId)

/-- Model of `addGameToWishlistModel`. -/
def addGameToWishlistModel (db : DB) (userId gameId : Nat) : Except String DB :=
  match getGameCreatorId db gameId with
  | none => .error "No game with id"
  | some creatorId =>
    if creatorId == userId then .error "Cannot wishlist a game you created"
    else if isGameOwnedByUser db userId gameId then
      .error "Cannot wishlist a game you have marked as owned"
    else if isGameWishlistedByUser db userId gameId then
      .ok db
    else
      .ok { db with wishlist := db.wishlist ++ [(gameId, userId)] }

/-- Model of `removeGameFromWishlistModel`. -/
def removeGameFromWishlistModel (db : DB) (userId gameId : Nat) : Except String DB :=
  if !(isGameWishlistedByUser db userId gameId) then
    .error "Game is not wishlisted by the user"
  else
    .ok { db with wishlist := db.wishlist.filter (fun p => !(p.1 == gameId && p.2 == userId)) }

/-- Model of `addGameToOwnedModel`. -/
def addGameToOwnedModel (db : DB) (userId gameId : Nat) : Except String DB :=
  match getGameCreatorId db gameId with
  | none => .error "No game with id"
  | some creatorId =>
    if creatorId == userId then .error "Cannot mark a game you created as owned"
    else if isGameOwnedByUser db userId gameId then
      .ok db
    else
      let db1 :=
        if isGameWishlistedByUser db userId gameId then
          { db with wishlist := db.wishlist.filter (fun p => !(p.1 == gameId && p.2 == userId)) }
        else db
      .ok { db1 with owned := db1.owned ++ [(gameId, userId)] }

/-- Model of `removeGameFromOwnedModel`. -/
def removeGameFromOwnedModel (db : DB) (userId gameId : Nat) : Except String DB :=
  if !(isGameOwnedByUser db userId gameId) then
    .error "Game is not marked as owned by the user"
  else
    .ok { db with owned := db.owned.filter (fun p => !(p.1 == gameId && p.2 == userId)) }

/-! ### game.review.model.ts -/

/-- Model of the `review || null` coercion on insert (empty string becomes NULL). -/
def jsOrNull : Option String → Option String
  | some s => if s == "" then none else some s
  | none => none

/-- Model of `addReview`: game must exist, self-review and duplicate review are
rejected, the rating must lie in 1..10; `ts` models `CURRENT_TIMESTAMP`. -/
def addReview (db : DB) (userId gameId : Nat) (rating : Int) (review : Option String)
    (ts : Nat) : Except String DB :=
  match db.games.find? (fun g => g.id == gameId) with
  | none => .error "No game found with id"
  | some g =>
    if g.creatorId == userId then .error "Cannot review your own game"
    else if db.reviews.any (fun r => r.gameId == gameId && r.userId == userId) then
      .error "Can only review a game once"
    else if rating < 1 || rating > 10 then .error "Rating must be between 1 and 10"
    else
      .ok { db with reviews := db.reviews ++
              [{ gameId := gameId, userId := userId, rating := rating,
                 review := jsOrNull review, timestamp := ts }] }

/-! ### game.model.ts -/

/-- Result row of `getGameById`: `rating` is `IFNULL(AVG(r.rating), 0)`, kept
exactly as the pair (sum of ratings, number of reviews) instead of a float. -/
structure DetailedGame where
  gameId : Nat
  title : String
  description : String
  genreId : Nat
  creationDate : Nat
  creatorId : Nat
  price : Nat
  creatorFirstName : String
  creatorLastName : String
  ratingSum : Int
  ratingCount : Nat
  platformIds : List Nat
  numberOfOwners : Nat
  numberOfWishlists : Nat
deriving Repr, DecidableEq

/-- Model of `getGameById` (the `JOIN user` drops a game whose creator row is
missing, hence the second `find?`). -/
def getGameById (db : DB) (gameId : Nat) : Option DetailedGame :=
  match db.games.find? (fun g => g.id == gameId) with
  | none => none
  | some g =>
    match db.users.find? (fun u => u.id == g.creatorId) with
    | none => none
    | some u =>
      let rs := db.reviews.filter (fun r => r.gameId == g.id)
      some { gameId := g.id, title := g.title, description := g.description,
             genreId := g.genreId, creationDate := g.creationDate,
             creatorId := g.creatorId, price := g.price,
             creatorFirstName := u.firstName, creatorLastName := u.lastName,
             ratingSum := (rs.map (·.rating)).sum, ratingCount := rs.length,
             platformIds := (db.gamePlatforms.filter (fun p => p.1 == g.id)).map (·.2),
             numberOfOwners := (db.owned.filter (fun p => p.1 == g.id)).length,
             numberOfWishlists := (db.wishlist.filter (fun p => p.1 == g.id)).length }

/-- Body of a game-creation request. -/
structure PostGame where
  title : String
  description : String
  genreId : Nat
  price : Nat
  platformIds : List Nat
deriving Repr, DecidableEq

/-- Model of `createGame`: validates the genre, a non-empty all-valid platform
list, the `UNIQUE(title)` constraint (surfaced as `ER_DUP_ENTRY`), then inserts
the game row and one `game_platforms` row per platform; `creationDate` models
the current timestamp taken at insert time. Returns the new game id. -/
def createGame (db : DB) (gameData : PostGame) (creatorId : Nat) (creationDate : Nat) :
    Except String (DB × Nat) :=
  if !(db.genres.contains gameData.genreId) then
    .error "Invalid genreId: genre does not exist"
  else if gameData.platformIds.isEmpty then
    .error "At least one platform is required"
  else if (db.platforms.filter (fun p => gameData.platformIds.contains p)).length
      != gameData.platformIds.length then
    .error "One or more platformIds are invalid"
  else if db.games.any (fun g => g.title == gameData.title) then
    .error "Game title already exists"
  else
    let gid := db.nextGameId
    .ok ({ db with
            games := db.games ++
              [{ id := gid, title := gameData.title, description := gameData.description,
                 creationDate := creationDate, imageFilename := none,
                 creatorId := creatorId, genreId := gameData.genreId,
                 price := gameData.price }],
            nextGameId := gid + 1,
            gamePlatforms := db.gamePlatforms ++ gameData.platformIds.map (fun pid => (gid, pid)) },
          gid)

/-- Optional fields of an `editGame` request body. -/
structure EditData where
  title : Option String := none
  description : Option String := none
  genreId : Option Nat := none
  price : Option Nat := none
  platforms : Option (List Nat) := none
deriving Repr, DecidableEq

/-- Model of `editGame`. Checks, in source order: the game exists (via
`getGameById`), the requester is its creator, a supplied truthy differing
title is unused, a supplied genre exists; then the `platforms` field is
required unconditionally (absent or empty throws), is validated, the row is
updated field-by-field and the `game_platforms` rows are fully replaced. -/
def editGame (db : DB) (gameId : Nat) (updatedData : EditData) (userId : Nat) :
    Except String DB :=
  match getGameById db gameId with
  | none => .error "No game found"
  | some game =>
    if game.creatorId != userId then .error "Only the creator of a game may change it"
    else
      let titleClash :=
        match updatedData.title with
        | some t => t != "" && t != game.title
            && db.games.any (fun g2 => g2.title == t && g2.id != gameId)
        | none => false
      if titleClash then .error "Game title already exists"
      else if (match updatedData.genreId with
               | some gi => !(db.genres.contains gi)
               | none => false) then
        .error "Invalid genreId: genre does not exist"
      else
        match updatedData.platforms with
        | none => .error "platformIds must be a non-empty array"
        | some ps =>
          if ps.isEmpty then .error "platformIds must be a non-empty array"
          else if (db.platforms.filter (fun p => ps.contains p)).length != ps.length then
            .error "One or more platformIds are invalid"
          else
            let upd : Game → Game := fun g =>
              { g with title := updatedData.title.getD g.title,
                       description := updatedData.description.getD g.description,
                       genreId := updatedData.genreId.getD g.genreId,
                       price := updatedData.price.getD g.price }
            .ok { db with
                  games := db.games.map (fun g => if g.id == gameId then upd g else g),
                  gamePlatforms := db.gamePlatforms.filter (fun p => p.1 != gameId)
                    ++ ps.map (fun pid => (gameId, pid)) }

/-- Model of `deleteGameById`: inside the manual transaction, a game with at
least one review is refused (ROLLBACK, so an error leaves the state as it
was); otherwise the wishlist/owned/game_platforms rows and the game row are
deleted, with `affectedRows === 0` (game absent) also rolled back. -/
def deleteGameById (db : DB) (gameId : Nat) : Except String DB :=
  let reviewCount := (db.reviews.filter (fun r => r.gameId == gameId)).length
  if reviewCount > 0 then .error "Game has reviews"
  else
    let affected := (db.games.filter (fun g => g.id == gameId)).length
    if affected == 0 then .error "No game found"
    else
      .ok { db with
            games := db.games.filter (fun g => g.id != gameId),
            wishlist := db.wishlist.filter (fun p => p.1 != gameId),
            owned := db.owned.filter (fun p => p.1 != gameId),
            gamePlatforms := db.gamePlatforms.filter (fun p => p.1 != gameId) }

/-! ### game.model.ts: getGames (the search/listing query builder) -/

/-- The `GetGamesParams` interface; `none` models an absent (`undefined`) or
`null` field, exactly as the only caller (`getAllGames`) produces them. -/
structure GetGamesParams where
  startIndex : Nat
  count : Nat
  q : Option String := none
  genreIds : Option (List Nat) := none
  platformIds : Option (List Nat) := none
  price : Option Nat := none
  creatorId : Option Nat := none
  reviewerId : Option Nat := none
  sortBy : String
  ownedByMe : Bool := false
  wishlistedByMe : Bool := false
  userId : Option Nat := none
deriving Repr, DecidableEq

/-- The dynamic `WHERE` clause of `getGames` as a predicate on a game row:
one conjunct per pushed condition, each guarded exactly as in the source
(`if (params.q)` is a truthiness test, `price` compares `= 0` or `<= ?`,
platform/reviewer/owned/wishlisted membership via the subqueries). -/
def gameMatches (db : DB) (params : GetGamesParams) (g : Game) : Bool :=
  (match params.q with
   | some s => if s != "" then strIncludes g.title s || strIncludes g.description s else true
   | none => true)
  && (match params.genreIds with
      | some l => if l.length > 0 then l.contains g.genreId else true
      | none => true)
  && (match params.price with
      | some v => if v == 0 then g.price == 0 else g.price ≤ v
      | none => true)
  && (match params.creatorId with
      | some c => g.creatorId == c
      | none => true)
  && (match params.platformIds with
      | some l => if l.length > 0 then
            db.gamePlatforms.any (fun gp => l.contains gp.2 && gp.1 == g.id)
          else true
      | none => true)
  && (match params.reviewerId with
      | some rid => db.reviews.any (fun rv => rv.gameId == g.id && rv.userId == rid)
      | none => true)
  && (if params.ownedByMe then
        db.owned.any (fun o => o.1 == g.id && o.2 == params.userId.getD 0)
      else true)
  && (if params.wishlistedByMe then
        db.wishlist.any (fun w => w.1 == g.id && w.2 == params.userId.getD 0)
      else true)

/-- The `allowedSortBys` set. -/
def allowedSortBys : List String :=
  ["ALPHABETICAL_ASC", "ALPHABETICAL_DESC", "PRICE_ASC", "PRICE_DESC",
   "CREATED_ASC", "CREATED_DESC", "RATING_ASC", "RATING_DESC"]

/-- A result row of the main query of `getGames`; as in `DetailedGame`, the
`rating` select is kept exactly as (sum, count). -/
structure ResultRow where
  gameId : Nat
  title : String
  genreId : Nat
  creationDate : Nat
  creatorId : Nat
  price : Nat
  creatorFirstName : String
  creatorLastName : String
  ratingSum : Int
  ratingCount : Nat
  platformIds : List Nat
deriving Repr, DecidableEq

/-- Row construction of the main query for one game (correlated subqueries
for rating and platform ids; creator names from the `JOIN user`). -/
def toResultRow (db : DB) (g : Game) : ResultRow :=
  let rs := db.reviews.filter (fun r => r.gameId == g.id)
  let u := db.users.find? (fun u => u.id == g.creatorId)
  { gameId := g.id, title := g.title, genreId := g.genreId,
    creationDate := g.creationDate, creatorId := g.creatorId, price := g.price,
    creatorFirstName := (u.map (·.firstName)).getD "",
    creatorLastName := (u.map (·.lastName)).getD "",
    ratingSum := (rs.map (·.rating)).sum, ratingCount := rs.length,
    platformIds := (db.gamePlatforms.filter (fun p => p.1 == g.id)).map (·.2) }

/-- Numerator of the row's `IFNULL(AVG(rating), 0)` value. -/
def ratingNum (r : ResultRow) : Int :=
  if r.ratingCount == 0 then 0 else r.ratingSum

/-- Denominator (always positive) of the row's `IFNULL(AVG(rating), 0)` value. -/
def ratingDen (r : ResultRow) : Int :=
  if r.ratingCount == 0 then 1 else (r.ratingCount : Int)

/-- The switch over the eight `ORDER BY` clauses, as an enum. -/
inductive SortChoice where
  | alphaAsc | alphaDesc | priceAsc | priceDesc
  | createdAsc | createdDesc | ratingAsc | ratingDesc | other
deriving Repr, DecidableEq

/-- Classification of the (already upper-cased, trimmed) `sortBy` string;
`other` corresponds to the dead `default` branch of the switch. -/
def classifySort (s : String) : SortChoice :=
  if s = "ALPHABETICAL_ASC" then .alphaAsc
  else if s = "ALPHABETICAL_DESC" then .alphaDesc
  else if s = "PRICE_ASC" then .priceAsc
  else if s = "PRICE_DESC" then .priceDesc
  else if s = "CREATED_ASC" then .createdAsc
  else if s = "CREATED_DESC" then .createdDesc
  else if s = "RATING_ASC" then .ratingAsc
  else if s = "RATING_DESC" then .ratingDesc
  else .other

/-- Row comparison realising each `ORDER BY` clause: the primary column in
the requested direction, ties broken by `game.id ASC`. Average ratings are
compared by cross-multiplication (`sumA/cntA ≤ sumB/cntB` over positive
denominators), which is exact. -/
def rowLE (s : String) (a b : ResultRow) : Bool :=
  match classifySort s with
  | .alphaAsc => decide (a.title < b.title ∨ (a.title = b.title ∧ a.gameId ≤ b.gameId))
  | .alphaDesc => decide (b.title < a.title ∨ (a.title = b.title ∧ a.gameId ≤ b.gameId))
  | .priceAsc => decide (a.price < b.price ∨ (a.price = b.price ∧ a.gameId ≤ b.gameId))
  | .priceDesc => decide (b.price < a.price ∨ (a.price = b.price ∧ a.gameId ≤ b.gameId))
  | .createdAsc =>
      decide (a.creationDate < b.creationDate ∨ (a.creationDate = b.creationDate ∧ a.gameId ≤ b.gameId))
  | .createdDesc =>
      decide (b.creationDate < a.creationDate ∨ (a.creationDate = b.creationDate ∧ a.gameId ≤ b.gameId))
  | .ratingAsc =>
      decide (ratingNum a * ratingDen b < ratingNum b * ratingDen a
        ∨ (ratingNum a * ratingDen b = ratingNum b * ratingDen a ∧ a.gameId ≤ b.gameId))
  | .ratingDesc =>
      decide (ratingNum b * ratingDen a < ratingNum a * ratingDen b
        ∨ (ratingNum a * ratingDen b = ratingNum b * ratingDen a ∧ a.gameId ≤ b.gameId))
  | .other =>
      decide (a.creationDate < b.creationDate ∨ (a.creationDate = b.creationDate ∧ a.gameId ≤ b.gameId))

/-- The order relation used for a given `sortBy` value. -/
def sortRel (s : String) : ResultRow → ResultRow → Prop :=
  fun a b => rowLE s a b = true

instance (s : String) : DecidableRel (sortRel s) :=
  fun a b => instDecidableEqBool (rowLE s a b) true

/-- Number of games matching the `WHERE` clause — the pre-pagination total
computed by the count query (`SELECT COUNT(*) FROM game WHERE ...`, no join). -/
def matchCount (db : DB) (params : GetGamesParams) : Nat :=
  (db.games.filter (gameMatches db params)).length

/-- Model of `getGames`: the two `userId`-required throws (JS truthiness), the
`sortBy` normalisation and allow-list check, the pre-pagination count, the
main query (`JOIN user` keeps only games whose creator row exists, `ORDER BY`
realised as a stable sort by `rowLE`, `LIMIT count OFFSET startIndex`), and
the final `totalCount === 0` throw. -/
def getGames (db : DB) (params : GetGamesParams) :
    Except String (List ResultRow × Nat) :=
  if params.ownedByMe && !(jsTruthyNat params.userId) then
    .error "User ID is required for ownedByMe filter"
  else if params.wishlistedByMe && !(jsTruthyNat params.userId) then
    .error "User ID is required for wishlistedByMe filter"
  else
    let sortBy := strToUpper (strTrim params.sortBy)
    if !(allowedSortBys.contains sortBy) then
      .error ("Invalid sortBy parameter: " ++ params.sortBy)
    else
      let matching := db.games.filter (gameMatches db params)
      let totalCount := matching.length
      let joined := matching.filter (fun g => db.users.any (fun u => u.id == g.creatorId))
      let rows := joined.map (toResultRow db)
      let sortedRows := List.insertionSort (sortRel sortBy) rows
      let page := (sortedRows.drop params.startIndex).take params.count
      if totalCount == 0 then .error "Invalid, no count"
      else .ok (page, totalCount)

/-! ### Controllers: query-parameter parsing and error-to-status mapping -/

/-- Model of the `parseNonNegativeInteger` helper of `game.controller.ts`:
an absent query value yields the default, otherwise `parseInt` with the
`isNaN(parsed) || parsed < 0` rejection. -/
def parseNonNegativeInteger (value : Option String) (name : String) (defaultValue : Nat) :
    Except String Nat :=
  match value with
  | none => .ok defaultValue
  | some s =>
    match parseIntJS s with
    | none => .error ("Invalid " ++ name ++ ": must be a non-negative integer")
    | some n =>
      if n < 0 then .error ("Invalid " ++ name ++ ": must be a non-negative integer")
      else .ok n.toNat

/-- Status chosen by the `addGameReview` controller's catch block
(`err.message.includes(...)` chain). -/
def addGameReviewStatus (msg : String) : Nat :=
  if strIncludes msg "No game found with id" then 404
  else if strIncludes msg "Cannot review your own game" then 403
  else if strIncludes msg "Can only review a game once" then 403
  else if strIncludes msg "Data too long" then 400
  else if strIncludes msg "Rating must be between" then 400
  else 500

/-- Status chosen by the `addGameToWishlist` controller's catch block. -/
def addGameToWishlistStatus (msg : String) : Nat :=
  if strIncludes msg "No game with id" then 404
  else if strIncludes msg "Cannot wishlist a game you created"
      || strIncludes msg "Cannot wishlist a game you have marked as owned" then 403
  else 500

/-- Status chosen by the `addGameToOwned` controller's catch block
(exact message comparisons). -/
def addGameToOwnedStatus (msg : String) : Nat :=
  if msg == "No game with id" then 404
  else if msg == "Cannot mark a game you created as owned" then 403
  else 500

/-- Status chosen by the `deleteGame` controller's catch block. -/
def deleteGameStatus (msg : String) : Nat :=
  if msg == "Game has reviews" then 403
  else if msg == "No game found" then 404
  else 500

/-- Status chosen by the `editGame` controller's catch block. -/
def editGameStatus (msg : String) : Nat :=
  if msg == "No game found" then 404
  else if msg == "Only the creator of a game may change it" then 403
  else if msg == "Game title already exists" then 403
  else if strIncludes msg "Invalid genreId" || strIncludes msg "platforms"
      || strIncludes msg "One or more platformIds are invalid" then 400
  else 500

/-! ### The state-transition system

Every state-mutating request handler, as one step each. Errors model thrown
exceptions, which abort the handler before its insert/update (or roll the
transaction back), so an erroring step leaves the state unchanged. -/

/-- Collapse an `Except`-returning mutation onto the state, errors leaving it
unchanged. -/
def applyE (db : DB) : Except String DB → DB
  | .ok db2 => db2
  | .error _ => db

/-- One API request that may change the database. -/
inductive Op where
  | opRegister (firstName lastName email password : String)
  | opIssueToken (uid : Nat) (tok : String)
  | opLogout (tok : String)
  | opUpdateUser (uid : Nat) (d : UserUpdate)
  | opCreateGame (gd : PostGame) (uid : Nat) (ts : Nat)
  | opEditGame (gid : Nat) (upd : EditData) (uid : Nat)
  | opDeleteGame (gid : Nat)
  | opAddReview (uid gid : Nat) (rating : Int) (rev : Option String) (ts : Nat)
  | opAddWishlist (uid gid : Nat)
  | opRemoveWishlist (uid gid : Nat)
  | opAddOwned (uid gid : Nat)
  | opRemoveOwned (uid gid : Nat)

/-- Effect of one request on the database. -/
def applyOp (db : DB) : Op → DB
  | .opRegister fn ln em pw => (createUser db fn ln em pw).1
  | .opIssueToken uid tok => loginIssueToken db uid tok
  | .opLogout tok => applyE db (logout db tok)
  | .opUpdateUser uid d => updateUserDetails db uid d
  | .opCreateGame gd uid ts =>
    match createGame db gd uid ts with
    | .ok (db2, _) => db2
    | .error _ => db
  | .opEditGame gid upd uid => applyE db (editGame db gid upd uid)
  | .opDeleteGame gid => applyE db (deleteGameById db gid)
  | .opAddReview uid gid r rev ts => applyE db (addReview db uid gid r rev ts)
  | .opAddWishlist uid gid => applyE db (addGameToWishlistModel db uid gid)
  | .opRemoveWishlist uid gid => applyE db (removeGameFromWishlistModel db uid gid)
  | .opAddOwned uid gid => applyE db (addGameToOwnedModel db uid gid)
  | .opRemoveOwned uid gid => applyE db (removeGameFromOwnedModel db uid gid)

/-- States reachable from `db0` through any sequence of API requests. -/
inductive Reachable (db0 : DB) : DB → Prop where
  | refl : Reachable db0 db0
  | step {db : DB} (op : Op) : Reachable db0 db → Reachable db0 (applyOp db op)

/-- Well-formedness invariant maintained by every operation: game ids are
unique and below the `AUTOINCREMENT` counter; every wishlist/owned/review row
references an existing game whose creator differs from the row's user
(creator exclusion); no (game, user) pair is wishlisted and owned at once;
and review (game, user) keys are unique. -/
structure Inv (db : DB) : Prop where
  idsNodup : (db.games.map (·.id)).Nodup
  idsLt : ∀ g ∈ db.games, g.id < db.nextGameId
  wishOk : ∀ p ∈ db.wishlist, ∃ g ∈ db.games, g.id = p.1 ∧ g.creatorId ≠ p.2
  ownOk : ∀ p ∈ db.owned, ∃ g ∈ db.games, g.id = p.1 ∧ g.creatorId ≠ p.2
  revOk : ∀ r ∈ db.reviews, ∃ g ∈ db.games, g.id = r.gameId ∧ g.creatorId ≠ r.userId
  disjointWO : ∀ p ∈ db.wishlist, p ∉ db.owned
  revKeyNodup : List.Pairwise (fun r1 r2 => ¬(r1.gameId = r2.gameId ∧ r1.userId = r2.userId)) db.reviews

/-! ### Helper lemmas -/

/-- With unique game ids, looking a member game up by its id finds exactly it. -/
lemma find?_id_of_nodup {games : List Game} (hnd : (games.map (·.id)).Nodup)
    {g : Game} (hg : g ∈ games) :
    games.find? (fun x => x.id == g.id) = some g := by
  induction games with
  | nil => cases hg
  | cons a tl ih =>
    simp only [List.map_cons, List.nodup_cons] at hnd
    rcases List.mem_cons.mp hg with rfl | htl
    · simp [List.find?_cons]
    · have hne : (a.id == g.id) = false := by
        refine beq_eq_false_iff_ne.mpr ?_
        intro hid
        exact hnd.1 (hid ▸ List.mem_map_of_mem (·.id) htl)
      simp [List.find?_cons, hne, ih hnd.2 htl]

/-- A successful `find?` on the id predicate returns a member with that id. -/
lemma find?_id_mem {games : List Game} {gid : Nat} {g : Game}
    (h : games.find? (fun x => x.id == gid) = some g) :
    g ∈ games ∧ g.id = gid := by
  refine ⟨List.mem_of_find?_eq_some h, ?_⟩
  have := List.find?_some h
  simpa using this

/-- An invariant is insensitive to the `users` and `nextUserId` columns. -/
lemma inv_users_change {db : DB} (h : Inv db) (users2 : List User) (nid : Nat) :
    Inv { db with users := users2, nextUserId := nid } :=
  ⟨h.idsNodup, h.idsLt, h.wishOk, h.ownOk, h.revOk, h.disjointWO, h.revKeyNodup⟩

lemma inv_applyE {db : DB} {r : Except String DB} (h : Inv db)
    (hok : ∀ db2, r = .ok db2 → Inv db2) : Inv (applyE db r) := by
  cases r with
  | ok db2 => exact hok db2 rfl
  | error e => exact h

/-- Creator exclusion for a new `(gameId, userId)` row follows from the
`getGameCreatorId` lookup plus the failed creator equality test. -/
lemma row_ok_of_creator_check {db : DB} {gid uid c : Nat}
    (hc : getGameCreatorId db gid = some c) (hne : (c == uid) = false) :
    ∃ g ∈ db.games, g.id = gid ∧ g.creatorId ≠ uid := by
  unfold getGameCreatorId at hc
  rcases hfind : db.games.find? (fun g => g.id == gid) with _ | g
  · rw [hfind] at hc; cases hc
  · rw [hfind] at hc
    obtain ⟨hmem, hid⟩ := find?_id_mem hfind
    refine ⟨g, hmem, hid, ?_⟩
    have : g.creatorId = c := by simpa using hc
    rw [this]
    exact beq_eq_false_iff_ne.mp hne

lemma not_owned_of_check {db : DB} {gid uid : Nat}
    (h : isGameOwnedByUser db uid gid = false) : (gid, uid) ∉ db.owned := by
  intro hmem
  unfold isGameOwnedByUser at h
  rw [List.any_eq_false] at h
  simpa using h _ hmem

lemma not_wishlisted_of_check {db : DB} {gid uid : Nat}
    (h : isGameWishlistedByUser db uid gid = false) : (gid, uid) ∉ db.wishlist := by
  intro hmem
  unfold isGameWishlistedByUser at h
  rw [List.any_eq_false] at h
  simpa using h _ hmem

/-! ### Preservation of the invariant by each operation -/

lemma inv_addGameToWishlistModel {db db2 : DB} {uid gid : Nat} (h : Inv db)
    (hok : addGameToWishlistModel db uid gid = .ok db2) : Inv db2 := by
  unfold addGameToWishlistModel at hok
  rcases hc : getGameCreatorId db gid with _ | c
  · simp [hc] at hok
  · cases hcu : (c == uid) with
    | true => simp [hc, hcu] at hok
    | false =>
      cases how : isGameOwnedByUser db uid gid with
      | true => simp [hc, hcu, how] at hok
      | false =>
        cases hww : isGameWishlistedByUser db uid gid with
        | true =>
          simp [hc, hcu, how, hww] at hok
          subst hok
          exact h
        | false =>
          simp [hc, hcu, how, hww] at hok
          subst hok
          refine ⟨h.idsNodup, h.idsLt, ?_, h.ownOk, h.revOk, ?_, h.revKeyNodup⟩
          · intro p hp
            rcases List.mem_append.mp hp with hold | hnew
            · exact h.wishOk p hold
            · have : p = (gid, uid) := by simpa using hnew
              subst this
              exact row_ok_of_creator_check hc hcu
          · intro p hp
            rcases List.mem_append.mp hp with hold | hnew
            · exact h.disjointWO p hold
            · have : p = (gid, uid) := by simpa using hnew
              subst this
              exact not_owned_of_check how

lemma inv_removeGameFromWishlistModel {db db2 : DB} {uid gid : Nat} (h : Inv db)
    (hok : removeGameFromWishlistModel db uid gid = .ok db2) : Inv db2 := by
  unfold removeGameFromWishlistModel at hok
  cases hw : isGameWishlistedByUser db uid gid with
  | false => simp [hw] at hok
  | true =>
    simp [hw] at hok
    subst hok
    refine ⟨h.idsNodup, h.idsLt, ?_, h.ownOk, h.revOk, ?_, h.revKeyNodup⟩
    · intro p hp
      exact h.wishOk p (List.mem_of_mem_filter hp)
    · intro p hp
      exact h.disjointWO p (List.mem_of_mem_filter hp)

lemma inv_addGameToOwnedModel {db db2 : DB} {uid gid : Nat} (h : Inv db)
    (hok : addGameToOwnedModel db uid gid = .ok db2) : Inv db2 := by
  unfold addGameToOwnedModel at hok
  rcases hc : getGameCreatorId db gid with _ | c
  · simp [hc] at hok
  · cases hcu : (c == uid) with
    | true => simp [hc, hcu] at hok
    | false =>
      cases how : isGameOwnedByUser db uid gid with
      | true =>
        simp [hc, hcu, how] at hok
        subst hok
        exact h
      | false =>
        cases hww : isGameWishlistedByUser db uid gid with
        | true =>
          simp [hc, hcu, how, hww] at hok
          subst hok
          refine ⟨h.idsNodup, h.idsLt, ?_, ?_, h.revOk, ?_, h.revKeyNodup⟩
          · intro p hp
            exact h.wishOk p (List.mem_of_mem_filter hp)
          · intro p hp
            rcases List.mem_append.mp hp with hold | hnew
            · exact h.ownOk p hold
            · have : p = (gid, uid) := by simpa using hnew
              subst this
              exact row_ok_of_creator_check hc hcu
          · intro p hp
            have hpw := List.mem_of_mem_filter hp
            have hcond := List.of_mem_filter hp
            intro hpo
            rcases List.mem_append.mp hpo with hold | hnew
            · exact h.disjointWO p hpw hold
            · have : p = (gid, uid) := by simpa using hnew
              subst this
              simp at hcond
        | false =>
          simp [hc, hcu, how, hww] at hok
          subst hok
          refine ⟨h.idsNodup, h.idsLt, h.wishOk, ?_, h.revOk, ?_, h.revKeyNodup⟩
          · intro p hp
            rcases List.mem_append.mp hp with hold | hnew
            · exact h.ownOk p hold
            · have : p = (gid, uid) := by simpa using hnew
              subst this
              exact row_ok_of_creator_check hc hcu
          · intro p hpw
            intro hpo
            rcases List.mem_append.mp hpo with hold | hnew
            · exact h.disjointWO p hpw hold
            · have : p = (gid, uid) := by simpa using hnew
              subst this
              exact not_wishlisted_of_check hww hpw

lemma inv_removeGameFromOwnedModel {db db2 : DB} {uid gid : Nat} (h : Inv db)
    (hok : removeGameFromOwnedModel db uid gid = .ok db2) : Inv db2 := by
  unfold removeGameFromOwnedModel at hok
  cases hw : isGameOwnedByUser db uid gid with
  | false => simp [hw] at hok
  | true =>
    simp [hw] at hok
    subst hok
    refine ⟨h.idsNodup, h.idsLt, h.wishOk, ?_, h.revOk, ?_, h.revKeyNodup⟩
    · intro p hp
      exact h.ownOk p (List.mem_of_mem_filter hp)
    · intro p hp hpo
      exact h.disjointWO p hp (List.mem_of_mem_filter hpo)

lemma inv_addReview {db db2 : DB} {uid gid : Nat} {rating : Int} {rev : Option String}
    {ts : Nat} (h : Inv db) (hok : addReview db uid gid rating rev ts = .ok db2) : Inv db2 := by
  unfold addReview at hok
  rcases hf : db.games.find? (fun g => g.id == gid) with _ | g
  · simp [hf] at hok
  · cases hcu : (g.creatorId == uid) with
    | true => simp [hf, hcu] at hok
    | false =>
      cases hdup : (db.reviews.any (fun r => r.gameId == gid && r.userId == uid)) with
      | true => simp [hf, hcu, hdup] at hok
      | false =>
        cases hrange : (rating < 1 || rating > 10) with
        | true => simp [hf, hcu, hdup, hrange] at hok
        | false =>
          simp [hf, hcu, hdup, hrange] at hok
          subst hok
          obtain ⟨hmem, hid⟩ := find?_id_mem hf
          have hnodup : ∀ r ∈ db.reviews, ¬(r.gameId = gid ∧ r.userId = uid) := by
            intro r hr hcontra
            rw [List.any_eq_false] at hdup
            have := hdup r hr
            simp [hcontra.1, hcontra.2] at this
          refine ⟨h.idsNodup, h.idsLt, h.wishOk, h.ownOk, ?_, h.disjointWO, ?_⟩
          · intro r hr
            rcases List.mem_append.mp hr with hold | hnew
            · exact h.revOk r hold
            · have : r = { gameId := gid, userId := uid, rating := rating,
                           review := jsOrNull rev, timestamp := ts } := by simpa using hnew
              subst this
              exact ⟨g, hmem, hid, beq_eq_false_iff_ne.mp hcu⟩
          · rw [List.pairwise_append]
            refine ⟨h.revKeyNodup, by simp, ?_⟩
            intro r1 hr1 r2 hr2
            have : r2 = { gameId := gid, userId := uid, rating := rating,
                          review := jsOrNull rev, timestamp := ts } := by simpa using hr2
            subst this
            exact hnodup r1 hr1

lemma inv_createGame {db db2 : DB} {gd : PostGame} {uid ts gidNew : Nat} (h : Inv db)
    (hok : createGame db gd uid ts = .ok (db2, gidNew)) : Inv db2 := by
  unfold createGame at hok
  split at hok
  · cases hok
  split at hok
  · cases hok
  split at hok
  · cases hok
  split at hok
  · cases hok
  simp only [Except.ok.injEq, Prod.mk.injEq] at hok
  obtain ⟨hdb, -⟩ := hok
  subst hdb
  have hfresh : ∀ g ∈ db.games, g.id ≠ db.nextGameId := by
    intro g hg
    exact Nat.ne_of_lt (h.idsLt g hg)
  refine ⟨?_, ?_, ?_, ?_, ?_, h.disjointWO, h.revKeyNodup⟩
  · rw [List.map_append, List.nodup_append]
    refine ⟨h.idsNodup, by simp, ?_⟩
    intro x hx
    simp only [List.map_cons, List.map_nil, List.mem_singleton]
    rcases List.mem_map.mp hx with ⟨g, hg, rfl⟩
    simpa using hfresh g hg
  · intro g hg
    rcases List.mem_append.mp hg with hold | hnew
    · exact Nat.lt_succ_of_lt (h.idsLt g hold)
    · have heq : g.id = db.nextGameId := by
        have := List.mem_singleton.mp hnew
        rw [this]
      rw [heq]
      exact Nat.lt_succ_self _
  · intro p hp
    obtain ⟨g, hg, hgp⟩ := h.wishOk p hp
    exact ⟨g, List.mem_append_left _ hg, hgp⟩
  · intro p hp
    obtain ⟨g, hg, hgp⟩ := h.ownOk p hp
    exact ⟨g, List.mem_append_left _ hg, hgp⟩
  · intro r hr
    obtain ⟨g, hg, hgp⟩ := h.revOk r hr
    exact ⟨g, List.mem_append_left _ hg, hgp⟩

lemma editGame_ok_inv {db db2 : DB} {gid : Nat} {upd : EditData} {uid : Nat}
    (hok : editGame db gid upd uid = .ok db2) :
    ∃ game ps, getGameById db gid = some game ∧ game.creatorId = uid ∧
      upd.platforms = some ps ∧ ps ≠ [] ∧
      db2 = { db with
              games := db.games.map (fun g => if g.id == gid then
                { g with title := upd.title.getD g.title,
                         description := upd.description.getD g.description,
                         genreId := upd.genreId.getD g.genreId,
                         price := upd.price.getD g.price } else g),
              gamePlatforms := db.gamePlatforms.filter (fun p => p.1 != gid)
                ++ ps.map (fun pid => (gid, pid)) } := by
  unfold editGame at hok
  rcases h0 : getGameById db gid with _ | game
  · simp [h0] at hok
  simp only [h0] at hok
  split at hok
  · cases hok
  case isFalse hcr =>
  have h1 : game.creatorId = uid := by simpa using hcr
  split at hok
  · cases hok
  split at hok
  · cases hok
  rcases hps : upd.platforms with _ | ps
  · simp only [hps] at hok
    cases hok
  simp only [hps] at hok
  split at hok
  · cases hok
  case isFalse hemp =>
  split at hok
  · cases hok
  cases hok
  exact ⟨game, ps, rfl, h1, rfl, by simpa using hemp, rfl⟩

lemma inv_editGame {db db2 : DB} {gid : Nat} {upd : EditData} {uid : Nat} (h : Inv db)
    (hok : editGame db gid upd uid = .ok db2) : Inv db2 := by
  obtain ⟨game, ps, h0, h1, hps, hne, hdb⟩ := editGame_ok_inv hok
  subst hdb
  set f : Game → Game := fun g =>
    if g.id == gid then
      { g with title := upd.title.getD g.title,
               description := upd.description.getD g.description,
               genreId := upd.genreId.getD g.genreId,
               price := upd.price.getD g.price }
    else g with hf
  have hid : ∀ g : Game, (f g).id = g.id := by
    intro g
    rw [hf]
    by_cases hc : (g.id == gid) = true <;> simp [hc]
  have hcr : ∀ g : Game, (f g).creatorId = g.creatorId := by
    intro g
    rw [hf]
    by_cases hc : (g.id == gid) = true <;> simp [hc]
  have hids : (db.games.map f).map (·.id) = db.games.map (·.id) := by
    rw [List.map_map]
    exact List.map_congr_left (fun g _ => hid g)
  refine ⟨?_, ?_, ?_, ?_, ?_, h.disjointWO, h.revKeyNodup⟩
  · rw [hids]
    exact h.idsNodup
  · intro g hg
    rcases List.mem_map.mp hg with ⟨g0, hg0, rfl⟩
    rw [hid]
    exact h.idsLt g0 hg0
  · intro p hp
    obtain ⟨g, hg, hg1, hg2⟩ := h.wishOk p hp
    exact ⟨f g, List.mem_map_of_mem f hg, by rw [hid]; exact hg1,
           by rw [hcr]; exact hg2⟩
  · intro p hp
    obtain ⟨g, hg, hg1, hg2⟩ := h.ownOk p hp
    exact ⟨f g, List.mem_map_of_mem f hg, by rw [hid]; exact hg1,
           by rw [hcr]; exact hg2⟩
  · intro r hr
    obtain ⟨g, hg, hg1, hg2⟩ := h.revOk r hr
    exact ⟨f g, List.mem_map_of_mem f hg, by rw [hid]; exact hg1,
           by rw [hcr]; exact hg2⟩

lemma deleteGameById_ok_inv {db db2 : DB} {gid : Nat}
    (hok : deleteGameById db gid = .ok db2) :
    (∀ r ∈ db.reviews, r.gameId ≠ gid) ∧ (∃ g ∈ db.games, g.id = gid) ∧
      db2 = { db with
              games := db.games.filter (fun g => g.id != gid),
              wishlist := db.wishlist.filter (fun p => p.1 != gid),
              owned := db.owned.filter (fun p => p.1 != gid),
              gamePlatforms := db.gamePlatforms.filter (fun p => p.1 != gid) } := by
  simp only [deleteGameById] at hok
  split at hok
  · cases hok
  case isFalse h1 =>
  split at hok
  · cases hok
  case isFalse h2 =>
  cases hok
  refine ⟨?_, ?_, rfl⟩
  · intro r hr hre
    have hz : (db.reviews.filter (fun r => r.gameId == gid)).length = 0 := by omega
    rw [List.length_eq_zero] at hz
    have hmem : r ∈ db.reviews.filter (fun r => r.gameId == gid) :=
      List.mem_filter.mpr ⟨hr, by simp [hre]⟩
    rw [hz] at hmem
    cases hmem
  · have hpos : (db.games.filter (fun g => g.id == gid)).length ≠ 0 := by
      intro hz
      exact h2 (by simpa using hz)
    obtain ⟨g, hg⟩ := List.exists_mem_of_ne_nil _ (List.length_pos.mp (Nat.pos_of_ne_zero hpos))
    exact ⟨g, List.mem_of_mem_filter hg, by simpa using List.of_mem_filter hg⟩

lemma inv_deleteGameById {db db2 : DB} {gid : Nat} (h : Inv db)
    (hok : deleteGameById db gid = .ok db2) : Inv db2 := by
  obtain ⟨hnorev, -, hdb⟩ := deleteGameById_ok_inv hok
  subst hdb
  refine ⟨?_, ?_, ?_, ?_, ?_, ?_, h.revKeyNodup⟩
  · exact (List.Sublist.map (·.id) (List.filter_sublist db.games)).nodup h.idsNodup
  · intro g hg
    exact h.idsLt g (List.mem_of_mem_filter hg)
  · intro p hp
    have hmem := List.mem_of_mem_filter hp
    have hcond := List.of_mem_filter hp
    obtain ⟨g, hg, hg1, hg2⟩ := h.wishOk p hmem
    refine ⟨g, List.mem_filter.mpr ⟨hg, ?_⟩, hg1, hg2⟩
    simp only [bne_iff_ne, ne_eq, hg1]
    simpa using hcond
  · intro p hp
    have hmem := List.mem_of_mem_filter hp
    have hcond := List.of_mem_filter hp
    obtain ⟨g, hg, hg1, hg2⟩ := h.ownOk p hmem
    refine ⟨g, List.mem_filter.mpr ⟨hg, ?_⟩, hg1, hg2⟩
    simp only [bne_iff_ne, ne_eq, hg1]
    simpa using hcond
  · intro r hr
    obtain ⟨g, hg, hg1, hg2⟩ := h.revOk r hr
    refine ⟨g, List.mem_filter.mpr ⟨hg, ?_⟩, hg1, hg2⟩
    simp only [bne_iff_ne, ne_eq, hg1]
    exact hnorev r hr
  · intro p hp hpo
    exact h.disjointWO p (List.mem_of_mem_filter hp) (List.mem_of_mem_filter hpo)

/-- Every API request preserves the invariant. -/
lemma inv_applyOp {db : DB} (h : Inv db) (op : Op) : Inv (applyOp db op) := by
  cases op with
  | opRegister fn ln em pw => exact inv_users_change h _ _
  | opIssueToken uid tok => exact inv_users_change h _ _
  | opLogout tok =>
    refine inv_applyE h ?_
    intro db2 hok
    unfold logout at hok
    rcases hu : getUserByToken db tok with _ | uid
    · simp [hu] at hok
    · simp [hu] at hok
      subst hok
      exact inv_users_change h _ _
  | opUpdateUser uid d => exact inv_users_change h _ _
  | opCreateGame gd uid ts =>
    simp only [applyOp]
    rcases hr : createGame db gd uid ts with e | ⟨db2, gidNew⟩
    · exact h
    · exact inv_createGame h hr
  | opEditGame gid upd uid =>
    refine inv_applyE h ?_
    intro db2 hok
    exact inv_editGame h hok
  | opDeleteGame gid =>
    refine inv_applyE h ?_
    intro db2 hok
    exact inv_deleteGameById h hok
  | opAddReview uid gid r rev ts =>
    refine inv_applyE h ?_
    intro db2 hok
    exact inv_addReview h hok
  | opAddWishlist uid gid =>
    refine inv_applyE h ?_
    intro db2 hok
    exact inv_addGameToWishlistModel h hok
  | opRemoveWishlist uid gid =>
    refine inv_applyE h ?_
    intro db2 hok
    exact inv_removeGameFromWishlistModel h hok
  | opAddOwned uid gid =>
    refine inv_applyE h ?_
    intro db2 hok
    exact inv_addGameToOwnedModel h hok
  | opRemoveOwned uid gid =>
    refine inv_applyE h ?_
    intro db2 hok
    exact inv_removeGameFromOwnedModel h hok

/-- The invariant holds in every state reachable from an invariant state. -/
lemma reachable_inv {db0 db : DB} (hr : Reachable db0 db) (h0 : Inv db0) : Inv db := by
  induction hr with
  | refl => exact h0
  | step op _ ih => exact inv_applyOp ih op

/-! ### Inversion and order lemmas for getGames -/

lemma getGames_ok_inv {db : DB} {p : GetGamesParams} {rows : List ResultRow} {cnt : Nat}
    (hok : getGames db p = .ok (rows, cnt)) :
    cnt = matchCount db p ∧ matchCount db p ≠ 0 ∧
      allowedSortBys.contains (strToUpper (strTrim p.sortBy)) = true ∧
      rows = ((List.insertionSort (sortRel (strToUpper (strTrim p.sortBy)))
          (((db.games.filter (gameMatches db p)).filter
              (fun g => db.users.any (fun u => u.id == g.creatorId))).map
            (toResultRow db))).drop p.startIndex).take p.count := by
  simp only [getGames] at hok
  split at hok
  · cases hok
  split at hok
  · cases hok
  split at hok
  · cases hok
  case isFalse h3 =>
  split at hok
  · cases hok
  case isFalse h4 =>
  cases hok
  refine ⟨rfl, ?_, by simpa using h3, rfl⟩
  intro hz
  exact h4 (by simpa [matchCount] using hz)

lemma tie_trans {β : Type} [LinearOrder β] {ka kb kc : β} {i j k : Nat}
    (h1 : ka < kb ∨ (ka = kb ∧ i ≤ j)) (h2 : kb < kc ∨ (kb = kc ∧ j ≤ k)) :
    ka < kc ∨ (ka = kc ∧ i ≤ k) := by
  rcases h1 with h1 | ⟨h1, hij⟩ <;> rcases h2 with h2 | ⟨h2, hjk⟩
  · exact .inl (lt_trans h1 h2)
  · exact .inl (h2 ▸ h1)
  · exact .inl (h1 ▸ h2)
  · exact .inr ⟨h1.trans h2, le_trans hij hjk⟩

lemma tie_total {β : Type} [LinearOrder β] (ka kb : β) (i j : Nat) :
    (ka < kb ∨ (ka = kb ∧ i ≤ j)) ∨ (kb < ka ∨ (kb = ka ∧ j ≤ i)) := by
  rcases lt_trichotomy ka kb with h | h | h
  · exact .inl (.inl h)
  · rcases le_total i j with hij | hij
    · exact .inl (.inr ⟨h, hij⟩)
    · exact .inr (.inr ⟨h.symm, hij⟩)
  · exact .inr (.inl h)

lemma tie_antisymm {β : Type} [LinearOrder β] {ka kb : β} {i j : Nat}
    (h1 : ka < kb ∨ (ka = kb ∧ i ≤ j)) (h2 : kb < ka ∨ (kb = ka ∧ j ≤ i)) : i = j := by
  rcases h1 with h1 | ⟨h1, hij⟩ <;> rcases h2 with h2 | ⟨h2, hji⟩
  · exact absurd (lt_trans h1 h2) (lt_irrefl _)
  · exact absurd h1 (by rw [h2]; exact lt_irrefl _)
  · exact absurd h2 (by rw [h1]; exact lt_irrefl _)
  · exact le_antisymm hij hji

lemma tieD_trans {β : Type} [LinearOrder β] {ka kb kc : β} {i j k : Nat}
    (h1 : kb < ka ∨ (ka = kb ∧ i ≤ j)) (h2 : kc < kb ∨ (kb = kc ∧ j ≤ k)) :
    kc < ka ∨ (ka = kc ∧ i ≤ k) := by
  rcases h1 with h1 | ⟨h1, hij⟩ <;> rcases h2 with h2 | ⟨h2, hjk⟩
  · exact .inl (lt_trans h2 h1)
  · exact .inl (h2 ▸ h1)
  · exact .inl (h1 ▸ h2)
  · exact .inr ⟨h1.trans h2, le_trans hij hjk⟩

lemma tieD_total {β : Type} [LinearOrder β] (ka kb : β) (i j : Nat) :
    (kb < ka ∨ (ka = kb ∧ i ≤ j)) ∨ (ka < kb ∨ (kb = ka ∧ j ≤ i)) := by
  rcases lt_trichotomy ka kb with h | h | h
  · exact .inr (.inl h)
  · rcases le_total i j with hij | hij
    · exact .inl (.inr ⟨h, hij⟩)
    · exact .inr (.inr ⟨h.symm, hij⟩)
  · exact .inl (.inl h)

lemma tieD_antisymm {β : Type} [LinearOrder β] {ka kb : β} {i j : Nat}
    (h1 : kb < ka ∨ (ka = kb ∧ i ≤ j)) (h2 : ka < kb ∨ (kb = ka ∧ j ≤ i)) : i = j := by
  rcases h1 with h1 | ⟨h1, hij⟩ <;> rcases h2 with h2 | ⟨h2, hji⟩
  · exact absurd (lt_trans h1 h2) (lt_irrefl _)
  · exact absurd h1 (by rw [h2]; exact lt_irrefl _)
  · exact absurd h2 (by rw [h1]; exact lt_irrefl _)
  · exact le_antisymm hij hji

/-- The exact average rating of a row, as a rational. -/
def ratQ (r : ResultRow) : Rat :=
  (ratingNum r : Rat) / (ratingDen r : Rat)

lemma ratingDen_pos (r : ResultRow) : 0 < ratingDen r := by
  unfold ratingDen
  split
  · exact Int.zero_lt_one
  case isFalse h =>
    have : r.ratingCount ≠ 0 := by simpa using h
    omega

lemma rating_lt_iff (a b : ResultRow) :
    ratingNum a * ratingDen b < ratingNum b * ratingDen a ↔ ratQ a < ratQ b := by
  have da : (0 : Rat) < (ratingDen a : Rat) := by exact_mod_cast ratingDen_pos a
  have db2 : (0 : Rat) < (ratingDen b : Rat) := by exact_mod_cast ratingDen_pos b
  unfold ratQ
  rw [div_lt_div_iff₀ da db2]
  constructor <;> intro h <;> exact_mod_cast h

lemma rating_eq_iff (a b : ResultRow) :
    ratingNum a * ratingDen b = ratingNum b * ratingDen a ↔ ratQ a = ratQ b := by
  have da : (0 : Rat) < (ratingDen a : Rat) := by exact_mod_cast ratingDen_pos a
  have db2 : (0 : Rat) < (ratingDen b : Rat) := by exact_mod_cast ratingDen_pos b
  unfold ratQ
  rw [div_eq_div_iff da.ne' db2.ne']
  constructor <;> intro h <;> exact_mod_cast h

lemma rowLE_trans (s : String) (a b c : ResultRow)
    (h1 : rowLE s a b = true) (h2 : rowLE s b c = true) : rowLE s a c = true := by
  unfold rowLE at h1 h2 ⊢
  cases hcs : classifySort s <;> simp only [hcs, decide_eq_true_eq] at h1 h2 ⊢
  case alphaAsc => exact tie_trans h1 h2
  case alphaDesc => exact tieD_trans h1 h2
  case priceAsc => exact tie_trans h1 h2
  case priceDesc => exact tieD_trans h1 h2
  case createdAsc => exact tie_trans h1 h2
  case createdDesc => exact tieD_trans h1 h2
  case ratingAsc =>
    rw [rating_lt_iff, rating_eq_iff] at h1 h2 ⊢
    exact tie_trans h1 h2
  case ratingDesc =>
    rw [rating_lt_iff, rating_eq_iff] at h1 h2 ⊢
    exact tieD_trans h1 h2
  case other => exact tie_trans h1 h2

lemma rowLE_total (s : String) (a b : ResultRow) :
    rowLE s a b = true ∨ rowLE s b a = true := by
  unfold rowLE
  cases hcs : classifySort s <;> simp only [hcs, decide_eq_true_eq]
  case alphaAsc => exact tie_total _ _ _ _
  case alphaDesc => exact tieD_total _ _ _ _
  case priceAsc => exact tie_total _ _ _ _
  case priceDesc => exact tieD_total _ _ _ _
  case createdAsc => exact tie_total _ _ _ _
  case createdDesc => exact tieD_total _ _ _ _
  case ratingAsc =>
    rw [rating_lt_iff, rating_eq_iff, rating_lt_iff, rating_eq_iff]
    exact tie_total _ _ _ _
  case ratingDesc =>
    rw [rating_lt_iff, rating_eq_iff, rating_lt_iff, rating_eq_iff]
    exact tieD_total _ _ _ _
  case other => exact tie_total _ _ _ _

lemma rowLE_antisymm (s : String) (a b : ResultRow)
    (h1 : rowLE s a b = true) (h2 : rowLE s b a = true) : a.gameId = b.gameId := by
  unfold rowLE at h1 h2
  cases hcs : classifySort s <;> simp only [hcs, decide_eq_true_eq] at h1 h2
  case alphaAsc => exact tie_antisymm h1 h2
  case alphaDesc => exact tieD_antisymm h1 h2
  case priceAsc => exact tie_antisymm h1 h2
  case priceDesc => exact tieD_antisymm h1 h2
  case createdAsc => exact tie_antisymm h1 h2
  case createdDesc => exact tieD_antisymm h1 h2
  case ratingAsc =>
    rw [rating_lt_iff, rating_eq_iff] at h1 h2
    exact tie_antisymm h1 h2
  case ratingDesc =>
    rw [rating_lt_iff, rating_eq_iff] at h1 h2
    exact tieD_antisymm h1 h2
  case other => exact tie_antisymm h1 h2

/-- The page returned by a successful `getGames` call. -/
def pageExpr (db : DB) (p : GetGamesParams) : List ResultRow :=
  ((List.insertionSort (sortRel (strToUpper (strTrim p.sortBy)))
      (((db.games.filter (gameMatches db p)).filter
          (fun g => db.users.any (fun u => u.id == g.creatorId))).map
        (toResultRow db))).drop p.startIndex).take p.count

lemma getGames_eq (db : DB) (p : GetGamesParams)
    (hc1 : (p.ownedByMe && !(jsTruthyNat p.userId)) = false)
    (hc2 : (p.wishlistedByMe && !(jsTruthyNat p.userId)) = false)
    (hsort : allowedSortBys.contains (strToUpper (strTrim p.sortBy)) = true) :
    getGames db p =
      if matchCount db p = 0 then .error "Invalid, no count"
      else .ok (pageExpr db p, matchCount db p) := by
  simp only [getGames, hc1, hc2, hsort, Bool.false_eq_true, if_false, Bool.not_true,
    pageExpr, matchCount]
  by_cases hz : (db.games.filter (gameMatches db p)).length = 0
  · simp [hz]
  · simp [hz]

lemma mem_rows_of_ok {db : DB} {p : GetGamesParams} {rows : List ResultRow} {cnt : Nat}
    (hok : getGames db p = .ok (rows, cnt)) {r : ResultRow} (hr : r ∈ rows) :
    ∃ g ∈ db.games, gameMatches db p g = true ∧ r = toResultRow db g := by
  obtain ⟨-, -, -, hrows⟩ := getGames_ok_inv hok
  subst hrows
  have h1 := List.mem_of_mem_drop (List.mem_of_mem_take hr)
  have h2 := (List.perm_insertionSort
    (sortRel (strToUpper (strTrim p.sortBy))) _).mem_iff.mp h1
  obtain ⟨g, hg, rfl⟩ := List.mem_map.mp h2
  have hg1 := List.mem_of_mem_filter hg
  exact ⟨g, List.mem_of_mem_filter hg1, List.of_mem_filter hg1, rfl⟩

/-! ### Sample data used by the witnesses -/

/-- Sample user 1 (creator of game 1). -/
def uW1 : User :=
  { id := 1, email := "ada@example.com", firstName := "Ada", lastName := "One",
    password := "hash1", imageFilename := none, authToken := none }

/-- Sample user 2 (creator of game 2). -/
def uW2 : User :=
  { id := 2, email := "bob@example.com", firstName := "Bob", lastName := "Two",
    password := "hash2", imageFilename := none, authToken := none }

/-- Sample free game created by user 1. -/
def gW1 : Game :=
  { id := 1, title := "Alpha", description := "first game", creationDate := 10,
    imageFilename := none, creatorId := 1, genreId := 1, price := 0 }

/-- Sample expensive game created by user 2. -/
def gW2 : Game :=
  { id := 2, title := "Beta", description := "second game", creationDate := 20,
    imageFilename := none, creatorId := 2, genreId := 1, price := 20000 }

/-- Sample database: two users, two games, no wishlist/owned/review rows. -/
def dbW : DB :=
  { users := [uW1, uW2], genres := [1], platforms := [1], games := [gW1, gW2],
    gamePlatforms := [(1, 1), (2, 1)], wishlist := [], owned := [], reviews := [],
    nextUserId := 3, nextGameId := 3 }

/-- Sample review by user 2 on game 1. -/
def rW : Review :=
  { gameId := 1, userId := 2, rating := 8, review := none, timestamp := 30 }

/-- Sample database where game 1 has one review and game 2 has none. -/
def dbR : DB :=
  { dbW with reviews := [rW] }

/-! ### The claims -/

/-- C4: `deleteGameById` always rejects a game that has at least one review
with error "Game has reviews" (mapped to 403 by the controller) and leaves
the state unchanged (ROLLBACK); for an existing game with zero reviews it
succeeds and also deletes the game's wishlist, owned and game_platforms rows
together with the game row. -/
theorem game_delete_with_reviews_C4 (db : DB) (gid : Nat) :
    ((∃ r ∈ db.reviews, r.gameId = gid) →
        deleteGameById db gid = .error "Game has reviews"
      ∧ applyE db (deleteGameById db gid) = db
      ∧ deleteGameStatus "Game has reviews" = 403)
  ∧ ((∀ r ∈ db.reviews, r.gameId ≠ gid) → (∃ g ∈ db.games, g.id = gid) →
      deleteGameById db gid = .ok
        { db with
          games := db.games.filter (fun g => g.id != gid),
          wishlist := db.wishlist.filter (fun p => p.1 != gid),
          owned := db.owned.filter (fun p => p.1 != gid),
          gamePlatforms := db.gamePlatforms.filter (fun p => p.1 != gid) }) := by
  constructor
  · rintro ⟨r, hr, hre⟩
    have hmem : r ∈ db.reviews.filter (fun r => r.gameId == gid) :=
      List.mem_filter.mpr ⟨hr, by simp [hre]⟩
    have hpos : (db.reviews.filter (fun r => r.gameId == gid)).length > 0 :=
      List.length_pos.mpr (List.ne_nil_of_mem hmem)
    have herr : deleteGameById db gid = .error "Game has reviews" := by
      simp only [deleteGameById]
      rw [if_pos hpos]
    refine ⟨herr, ?_, by decide⟩
    rw [herr]
    rfl
  · rintro hno ⟨g, hg, hgid⟩
    have hz : db.reviews.filter (fun r => r.gameId == gid) = [] := by
      rw [List.filter_eq_nil_iff]
      intro r hr
      simpa using hno r hr
    have hpos : (db.games.filter (fun g => g.id == gid)).length ≠ 0 := by
      have hmem : g ∈ db.games.filter (fun g => g.id == gid) :=
        List.mem_filter.mpr ⟨hg, by simp [hgid]⟩
      intro hlen
      rw [List.length_eq_zero] at hlen
      rw [hlen] at hmem
      cases hmem
    simp only [deleteGameById, hz]
    rw [if_neg (by simp), if_neg (by simpa using hpos)]

/-- C4 witness: in `dbR`, deleting game 1 (one review) fails with 403 and no
state change, while deleting game 2 (no reviews) succeeds and cascades. -/
theorem game_delete_with_reviews_C4_witness :
    (∃ r ∈ dbR.reviews, r.gameId = 1)
  ∧ deleteGameById dbR 1 = .error "Game has reviews"
  ∧ applyE dbR (deleteGameById dbR 1) = dbR
  ∧ deleteGameStatus "Game has reviews" = 403
  ∧ (∀ r ∈ dbR.reviews, r.gameId ≠ 2)
  ∧ (∃ g ∈ dbR.games, g.id = 2)
  ∧ deleteGameById dbR 2 = .ok
      { dbR with
        games := dbR.games.filter (fun g => g.id != 2),
        wishlist := dbR.wishlist.filter (fun p => p.1 != 2),
        owned := dbR.owned.filter (fun p => p.1 != 2),
        gamePlatforms := dbR.gamePlatforms.filter (fun p => p.1 != 2) } := by
  have h1 := (game_delete_with_reviews_C4 dbR 1).1 (by decide)
  have h2 := (game_delete_with_reviews_C4 dbR 2).2 (by decide) (by decide)
  exact ⟨by decide, h1.1, h1.2.1, h1.2.2, by decide, by decide, h2⟩

/-- C3 counterexample: the claim asserts that an edit supplying only a title
succeeds without platform checks, but `editGame` unconditionally requires a
non-empty `platforms` array: the creator of game 1 editing only the title is
rejected. -/
theorem game_edit_only_title_C3_counterexample :
    editGame dbW 1 { title := some "Gamma" } 1
      = .error "platformIds must be a non-empty array" := by decide

/-- C3 (amended): an edit succeeds only when the requester is the creator
(a non-creator gets "Only the creator of a game may change it", mapped to
403); the genre is re-validated only when supplied; but the `platforms`
field is required on every edit (absent platforms can never succeed), and on
success the supplied non-empty platform list fully replaces the game's
`game_platforms` rows (delete-all then re-insert). -/
theorem game_edit_rules_C3 (db : DB) (gid : Nat) (upd : EditData) (uid : Nat) :
    (∀ db2, editGame db gid upd uid = .ok db2 →
        (∃ game, getGameById db gid = some game ∧ game.creatorId = uid)
      ∧ (∃ ps, upd.platforms = some ps ∧ ps ≠ []
          ∧ db2.gamePlatforms = db.gamePlatforms.filter (fun p => p.1 != gid)
              ++ ps.map (fun pid => (gid, pid))))
  ∧ (∀ game, getGameById db gid = some game → game.creatorId ≠ uid →
        editGame db gid upd uid = .error "Only the creator of a game may change it"
      ∧ editGameStatus "Only the creator of a game may change it" = 403)
  ∧ (upd.platforms = none → ∀ db2, editGame db gid upd uid ≠ .ok db2)
  ∧ (upd.genreId = none →
      editGame db gid upd uid ≠ .error "Invalid genreId: genre does not exist") := by
  refine ⟨?_, ?_, ?_, ?_⟩
  · intro db2 hok
    obtain ⟨game, ps, h0, h1, hps, hne, hdb⟩ := editGame_ok_inv hok
    subst hdb
    exact ⟨⟨game, h0, h1⟩, ⟨ps, hps, hne, rfl⟩⟩
  · intro game h0 hne
    have hcond : (game.creatorId != uid) = true := by simpa using hne
    constructor
    · simp only [editGame, h0]
      rw [if_pos hcond]
    · decide
  · intro hps db2 hok
    obtain ⟨game, ps, h0, h1, hps2, hne, hdb⟩ := editGame_ok_inv hok
    rw [hps] at hps2
    cases hps2
  · intro hgen hok
    simp only [editGame, hgen] at hok
    repeat' split at hok
    all_goals simp_all

/-- Detailed row of game 1 in the sample database. -/
def dgW1 : DetailedGame :=
  { gameId := 1, title := "Alpha", description := "first game", genreId := 1,
    creationDate := 10, creatorId := 1, price := 0, creatorFirstName := "Ada",
    creatorLastName := "One", ratingSum := 0, ratingCount := 0, platformIds := [1],
    numberOfOwners := 0, numberOfWishlists := 0 }

/-- C3 witness: in the sample database, a non-creator's edit of game 1 is
rejected with the creator-only error, mapped to 403. -/
theorem game_edit_rules_C3_witness :
    getGameById dbW 1 = some dgW1
  ∧ dgW1.creatorId ≠ 2
  ∧ editGame dbW 1 { platforms := some [1] } 2
      = .error "Only the creator of a game may change it"
  ∧ editGameStatus "Only the creator of a game may change it" = 403 :=
  ⟨by decide, by decide,
    ((game_edit_rules_C3 dbW 1 { platforms := some [1] } 2).2.1 dgW1
      (by decide) (by decide)).1,
    ((game_edit_rules_C3 dbW 1 { platforms := some [1] } 2).2.1 dgW1
      (by decide) (by decide)).2⟩

lemma find?_token_after_login {users : List User} {uid : Nat} {tok : String}
    (hu : ∃ u ∈ users, u.id = uid)
    (hother : ∀ u ∈ users, u.id ≠ uid → u.authToken ≠ some tok) :
    ∃ u2, ((users.map (fun u => if u.id == uid then { u with authToken := some tok } else u)).find?
        (fun u => u.authToken == some tok)) = some u2 ∧ u2.id = uid := by
  induction users with
  | nil => obtain ⟨u, hmem, -⟩ := hu; cases hmem
  | cons a tl ih =>
    by_cases ha : a.id = uid
    · refine ⟨{ a with authToken := some tok }, ?_, ha⟩
      simp [List.find?_cons, ha]
    · have hne : (a.id == uid) = false := beq_eq_false_iff_ne.mpr ha
      have hatok : (a.authToken == some tok) = false := by
        have := hother a (List.mem_cons_self a tl) ha
        simpa using this
      obtain ⟨u, hmem, hid⟩ := hu
      rcases List.mem_cons.mp hmem with rfl | htl
      · exact absurd hid ha
      · obtain ⟨u2, hfind, hid2⟩ := ih ⟨u, htl, hid⟩
          (fun v hv => hother v (List.mem_cons_of_mem a hv))
        refine ⟨u2, ?_, hid2⟩
        simp only [List.map_cons, List.find?_cons, hne, hatok, Bool.false_eq_true, if_false]
        exact hfind

/-- C6: the token issued at login authenticates exactly the logged-in user
(the middleware accepts it as that user) until logout; once logout nulls the
stored token, `getUserByToken` returns null for the old token and the auth
middleware responds 401 — assuming no other user's stored token equals it. -/
theorem token_lifecycle_C6 (db : DB) (uid : Nat) (tok : String)
    (hu : ∃ u ∈ db.users, u.id = uid)
    (hother : ∀ u ∈ db.users, u.id ≠ uid → u.authToken ≠ some tok) :
    getUserByToken (loginIssueToken db uid tok) tok = some uid
  ∧ validateUserAuthToken (loginIssueToken db uid tok) (some tok) = .ok uid
  ∧ ∃ db2, logout (loginIssueToken db uid tok) tok = .ok db2
      ∧ getUserByToken db2 tok = none
      ∧ validateUserAuthToken db2 (some tok) = .error 401 := by
  obtain ⟨u2, hfind, hid2⟩ := find?_token_after_login hu hother
  have hmain : getUserByToken (loginIssueToken db uid tok) tok = some uid := by
    unfold getUserByToken loginIssueToken updateUserToken
    rw [hfind]
    simp [hid2]
  have husers : (updateUserToken (loginIssueToken db uid tok) uid none).users
      = List.map (fun u => if u.id == uid then { u with authToken := none } else u)
          (List.map (fun u => if u.id == uid then { u with authToken := some tok } else u)
            db.users) := rfl
  have hnone :
      getUserByToken (updateUserToken (loginIssueToken db uid tok) uid none) tok = none := by
    unfold getUserByToken
    rw [husers]
    rcases hf2 : List.find? (fun u => u.authToken == some tok)
        (List.map (fun u => if u.id == uid then { u with authToken := none } else u)
          (List.map (fun u => if u.id == uid then { u with authToken := some tok } else u)
            db.users)) with _ | v
    · rw [hf2]
      rfl
    · exfalso
      have hv : (v.authToken == some tok) = true :=
        @List.find?_some User (fun u => u.authToken == some tok) _ _ hf2
      have hvmem := List.mem_of_find?_eq_some hf2
      rcases List.mem_map.mp hvmem with ⟨w, hw, rfl⟩
      rcases List.mem_map.mp hw with ⟨w0, hw0, rfl⟩
      by_cases hwid : w0.id = uid
      · have hne2 : (w0.id == uid) = true := beq_iff_eq.mpr hwid
        simp [hne2] at hv
      · have hne2 : (w0.id == uid) = false := beq_eq_false_iff_ne.mpr hwid
        simp only [hne2, Bool.false_eq_true, if_false] at hv
        exact hother w0 hw0 hwid (by simpa using hv)
  refine ⟨hmain, ?_, ?_⟩
  · simp only [validateUserAuthToken, hmain]
  · refine ⟨updateUserToken (loginIssueToken db uid tok) uid none, ?_, hnone, ?_⟩
    · simp only [logout, hmain]
    · simp only [validateUserAuthToken, hnone]

/-- C6 witness: in the sample database, login of user 2 with a concrete
token, then logout, behave as the claim states. -/
theorem token_lifecycle_C6_witness :
    (∃ u ∈ dbW.users, u.id = 2)
  ∧ (∀ u ∈ dbW.users, u.id ≠ 2 → u.authToken ≠ some "tok123")
  ∧ (getUserByToken (loginIssueToken dbW 2 "tok123") "tok123" = some 2
    ∧ validateUserAuthToken (loginIssueToken dbW 2 "tok123") (some "tok123") = .ok 2
    ∧ ∃ db2, logout (loginIssueToken dbW 2 "tok123") "tok123" = .ok db2
        ∧ getUserByToken db2 "tok123" = none
        ∧ validateUserAuthToken db2 (some "tok123") = .error 401) :=
  ⟨by decide, by decide, token_lifecycle_C6 dbW 2 "tok123" (by decide) (by decide)⟩

/-- C2: for every request with valid parameters, `getGames` returns the
total pre-pagination count of matching games alongside the page, and when
that count is zero it instead throws "Invalid, no count". -/
theorem search_zero_count_C2 (db : DB) (p : GetGamesParams)
    (howned : p.ownedByMe = true → jsTruthyNat p.userId = true)
    (hwish : p.wishlistedByMe = true → jsTruthyNat p.userId = true)
    (hsort : allowedSortBys.contains (strToUpper (strTrim p.sortBy)) = true) :
    (matchCount db p ≠ 0 → getGames db p = .ok (pageExpr db p, matchCount db p))
  ∧ (matchCount db p = 0 → getGames db p = .error "Invalid, no count") := by
  have hc1 : (p.ownedByMe && !(jsTruthyNat p.userId)) = false := by
    cases hob : p.ownedByMe
    · simp
    · simp [howned hob]
  have hc2 : (p.wishlistedByMe && !(jsTruthyNat p.userId)) = false := by
    cases hwb : p.wishlistedByMe
    · simp
    · simp [hwish hwb]
  have he := getGames_eq db p hc1 hc2 hsort
  constructor
  · intro hnz
    rw [he, if_neg hnz]
  · intro hz
    rw [he, if_pos hz]

/-- Search parameters used by the witnesses: default pagination, default
price cap 10000, sort by creation date ascending. -/
def pW : GetGamesParams :=
  { startIndex := 0, count := 100, price := some 10000, sortBy := "CREATED_ASC" }

/-- Search parameters matching nothing in the sample database. -/
def pWnone : GetGamesParams :=
  { startIndex := 0, count := 100, q := some "zzz", price := some 10000,
    sortBy := "CREATED_ASC" }

/-- C2 witness: on the sample database, the same theorem yields the
successful page with its pre-pagination count for `pW` and the thrown
zero-count error for `pWnone`. -/
theorem search_zero_count_C2_witness :
    (matchCount dbW pW ≠ 0 ∧ getGames dbW pW = .ok (pageExpr dbW pW, matchCount dbW pW))
  ∧ (matchCount dbW pWnone = 0 ∧ getGames dbW pWnone = .error "Invalid, no count") :=
  ⟨⟨by decide,
    (search_zero_count_C2 dbW pW (by decide) (by decide) (by decide)).1 (by decide)⟩,
   ⟨by decide,
    (search_zero_count_C2 dbW pWnone (by decide) (by decide) (by decide)).2 (by decide)⟩⟩

/-- C10: when the request supplies no price parameter the controller
substitutes the default 10000 (`parseNonNegativeInteger`), and the model then
always applies the price condition, so every returned row is priced at most
10000, the returned count only counts matching games, and every game priced
strictly above 10000 fails the filter (excluded from results and count). -/
theorem search_default_price_cap_C10 (db : DB) (p : GetGamesParams)
    (rows : List ResultRow) (cnt : Nat)
    (hok : getGames db p = .ok (rows, cnt)) (hp : p.price = some 10000) :
    parseNonNegativeInteger none "price" 10000 = .ok 10000
  ∧ (∀ r ∈ rows, r.price ≤ 10000)
  ∧ cnt = matchCount db p
  ∧ (∀ g ∈ db.games, 10000 < g.price → gameMatches db p g = false) := by
  refine ⟨rfl, ?_, (getGames_ok_inv hok).1, ?_⟩
  · intro r hr
    obtain ⟨g, hg, hmatch, rfl⟩ := mem_rows_of_ok hok hr
    have hprice : g.price ≤ 10000 := by
      simp only [gameMatches, hp, Bool.and_eq_true] at hmatch
      obtain ⟨⟨⟨⟨⟨⟨⟨-, -⟩, hC⟩, -⟩, -⟩, -⟩, -⟩, -⟩ := hmatch
      simpa using hC
    simpa [toResultRow] using hprice
  · intro g hg hgt
    have hnle : ¬(g.price ≤ 10000) := by omega
    simp [gameMatches, hp, hnle]

/-- C10 witness: searching the sample database with the default price cap
returns only the free game (the 20000-priced game is excluded from the page
and the count). -/
theorem search_default_price_cap_C10_witness :
    getGames dbW pW = .ok ([toResultRow dbW gW1], 1)
  ∧ pW.price = some 10000
  ∧ (parseNonNegativeInteger none "price" 10000 = .ok 10000
    ∧ (∀ r ∈ [toResultRow dbW gW1], r.price ≤ 10000)
    ∧ 1 = matchCount dbW pW
    ∧ (∀ g ∈ dbW.games, 10000 < g.price → gameMatches dbW pW g = false)) :=
  ⟨by decide, by decide,
   search_default_price_cap_C10 dbW pW [toResultRow dbW gW1] 1 (by decide) (by decide)⟩

/-- A search request whose only filter is the price parameter. -/
def OnlyPriceFilter (p : GetGamesParams) : Prop :=
  p.q = none ∧ p.genreIds = none ∧ p.platformIds = none ∧ p.creatorId = none ∧
  p.reviewerId = none ∧ p.ownedByMe = false ∧ p.wishlistedByMe = false

lemma gameMatches_pure (db : DB) (p : GetGamesParams) (g : Game)
    (hpure : OnlyPriceFilter p) {v : Nat} (hp : p.price = some v) :
    gameMatches db p g = (if v == 0 then g.price == 0 else decide (g.price ≤ v)) := by
  obtain ⟨h1, h2, h3, h4, h5, h6, h7⟩ := hpure
  simp [gameMatches, h1, h2, h3, h4, h5, h6, h7, hp]

/-- C8: a search filtering only by price returns exactly the games passing
the price test — with `price = 0` exactly the games priced 0, with a positive
price `v` exactly the games priced at most `v` — and, for any search request
whatsoever, `price = 0` restricts every returned row to price 0. -/
theorem search_price_filter_C8 (db : DB) (p : GetGamesParams)
    (rows : List ResultRow) (cnt : Nat) (v : Nat)
    (hok : getGames db p = .ok (rows, cnt))
    (hpure : OnlyPriceFilter p)
    (hp : p.price = some v)
    (hjoin : ∀ g ∈ db.games, ∃ u ∈ db.users, u.id = g.creatorId)
    (hstart : p.startIndex = 0) (hcount : db.games.length ≤ p.count) :
    (rows.map (·.gameId)).Perm
      ((db.games.filter
          (fun g => if v == 0 then g.price == 0 else decide (g.price ≤ v))).map (·.id))
  ∧ (∀ (p2 : GetGamesParams) rows2 cnt2, getGames db p2 = .ok (rows2, cnt2) →
      p2.price = some 0 → ∀ r ∈ rows2, r.price = 0) := by
  constructor
  · obtain ⟨-, -, -, hrows⟩ := getGames_ok_inv hok
    have hfil : (db.games.filter (gameMatches db p)).filter
        (fun g => db.users.any (fun u => u.id == g.creatorId))
        = db.games.filter (gameMatches db p) := by
      rw [List.filter_eq_self]
      intro g hg
      obtain ⟨u, hu, hui⟩ := hjoin g (List.mem_of_mem_filter hg)
      exact List.any_eq_true.mpr ⟨u, hu, by simp [hui]⟩
    rw [hfil, hstart, List.drop_zero] at hrows
    have hlen : (List.insertionSort (sortRel (strToUpper (strTrim p.sortBy)))
        ((db.games.filter (gameMatches db p)).map (toResultRow db))).length ≤ p.count := by
      rw [(List.perm_insertionSort _ _).length_eq, List.length_map]
      exact le_trans (List.length_filter_le _ _) hcount
    rw [List.take_of_length_le hlen] at hrows
    subst hrows
    have hperm := (List.perm_insertionSort (sortRel (strToUpper (strTrim p.sortBy)))
      ((db.games.filter (gameMatches db p)).map (toResultRow db))).map (·.gameId)
    have hmapid : ((db.games.filter (gameMatches db p)).map (toResultRow db)).map (·.gameId)
        = (db.games.filter (gameMatches db p)).map (·.id) := by
      rw [List.map_map]
      rfl
    have hfcong : db.games.filter (gameMatches db p)
        = db.games.filter (fun g => if v == 0 then g.price == 0 else decide (g.price ≤ v)) := by
      apply List.filter_congr
      intro g hg
      exact gameMatches_pure db p g hpure hp
    rw [hmapid] at hperm
    have hre : ((db.games.filter (gameMatches db p)).map (·.id)).Perm
        ((db.games.filter
            (fun g => if v == 0 then g.price == 0 else decide (g.price ≤ v))).map (·.id)) := by
      rw [hfcong]
    exact hperm.trans hre
  · intro p2 rows2 cnt2 hok2 hp2 r hr
    obtain ⟨g, hg, hmatch, rfl⟩ := mem_rows_of_ok hok2 hr
    have hfree : g.price = 0 := by
      simp only [gameMatches, hp2, Bool.and_eq_true] at hmatch
      obtain ⟨⟨⟨⟨⟨⟨⟨-, -⟩, hC⟩, -⟩, -⟩, -⟩, -⟩, -⟩ := hmatch
      simpa using hC
    simpa [toResultRow] using hfree

/-- Search parameters selecting only free games in the sample database. -/
def pWfree : GetGamesParams :=
  { startIndex := 0, count := 100, price := some 0, sortBy := "CREATED_ASC" }

/-- C8 witness: on the sample database the free-game search returns exactly
game 1, and the returned rows are all priced 0. -/
theorem search_price_filter_C8_witness :
    getGames dbW pWfree = .ok ([toResultRow dbW gW1], 1)
  ∧ OnlyPriceFilter pWfree
  ∧ pWfree.price = some 0
  ∧ (∀ g ∈ dbW.games, ∃ u ∈ dbW.users, u.id = g.creatorId)
  ∧ pWfree.startIndex = 0
  ∧ dbW.games.length ≤ pWfree.count
  ∧ ([toResultRow dbW gW1].map (·.gameId)).Perm
      ((dbW.games.filter
          (fun g => if (0 : Nat) == 0 then g.price == 0 else decide (g.price ≤ 0))).map (·.id))
  ∧ (∀ r ∈ [toResultRow dbW gW1], r.price = 0) :=
  have h := search_price_filter_C8 dbW pWfree [toResultRow dbW gW1] 1 0
    (by decide) ⟨rfl, rfl, rfl, rfl, rfl, rfl, rfl⟩ (by decide) (by decide)
    (by decide) (by decide)
  ⟨by decide, ⟨rfl, rfl, rfl, rfl, rfl, rfl, rfl⟩, by decide, by decide, by decide,
   by decide, h.1,
   h.2 pWfree [toResultRow dbW gW1] 1 (by decide) (by decide)⟩

/-- C7: every successful `getGames` page is ordered by the `rowLE` relation
of its (normalised) `sortBy` value — primary column in the requested
direction, ties broken by game id ascending; that relation is total and,
whenever it holds both ways, forces equal game ids (antisymmetry up to id);
and with unique game ids in the database the page's ids are distinct, so the
order is fully deterministic. -/
theorem search_sort_order_C7 (db : DB) (p : GetGamesParams)
    (rows : List ResultRow) (cnt : Nat)
    (hok : getGames db p = .ok (rows, cnt)) :
    List.Pairwise (sortRel (strToUpper (strTrim p.sortBy))) rows
  ∧ (∀ a b : ResultRow, rowLE (strToUpper (strTrim p.sortBy)) a b = true
      ∨ rowLE (strToUpper (strTrim p.sortBy)) b a = true)
  ∧ (∀ a b : ResultRow, rowLE (strToUpper (strTrim p.sortBy)) a b = true
      → rowLE (strToUpper (strTrim p.sortBy)) b a = true → a.gameId = b.gameId)
  ∧ ((db.games.map (·.id)).Nodup → (rows.map (·.gameId)).Nodup) := by
  obtain ⟨-, -, -, hrows⟩ := getGames_ok_inv hok
  set s := strToUpper (strTrim p.sortBy) with hs
  haveI : IsTrans ResultRow (sortRel s) := ⟨fun a b c => rowLE_trans s a b c⟩
  haveI : IsTotal ResultRow (sortRel s) := ⟨fun a b => rowLE_total s a b⟩
  set mapped := ((db.games.filter (gameMatches db p)).filter
      (fun g => db.users.any (fun u => u.id == g.creatorId))).map (toResultRow db) with hm
  have hsorted : List.Pairwise (sortRel s) (List.insertionSort (sortRel s) mapped) :=
    List.sorted_insertionSort (sortRel s) mapped
  have hsub : rows.Sublist (List.insertionSort (sortRel s) mapped) := by
    rw [hrows]
    exact (List.take_sublist _ _).trans (List.drop_sublist _ _)
  refine ⟨List.Pairwise.sublist hsub hsorted, fun a b => rowLE_total s a b,
         fun a b => rowLE_antisymm s a b, ?_⟩
  intro hnd
  have hnd1 : ((db.games.filter (gameMatches db p)).filter
      (fun g => db.users.any (fun u => u.id == g.creatorId))).map (·.id) |>.Nodup := by
    refine List.Nodup.sublist ?_ hnd
    exact List.Sublist.map _ ((List.filter_sublist _).trans (List.filter_sublist _))
  have hmid : mapped.map (·.gameId)
      = ((db.games.filter (gameMatches db p)).filter
          (fun g => db.users.any (fun u => u.id == g.creatorId))).map (·.id) := by
    rw [hm, List.map_map]
    rfl
  have hnd2 : (mapped.map (·.gameId)).Nodup := by
    rw [hmid]
    exact hnd1
  have hnd3 : ((List.insertionSort (sortRel s) mapped).map (·.gameId)).Nodup :=
    ((List.perm_insertionSort (sortRel s) mapped).map (·.gameId)).nodup_iff.mpr hnd2
  exact List.Nodup.sublist (List.Sublist.map _ hsub) hnd3

/-- C7 witness: a concrete descending-price search over the sample database
produces a page ordered by `rowLE "PRICE_DESC"`. -/
theorem search_sort_order_C7_witness :
    getGames dbW { startIndex := 0, count := 100, price := some 30000,
                   sortBy := "PRICE_DESC" }
      = .ok ([toResultRow dbW gW2, toResultRow dbW gW1], 2)
  ∧ List.Pairwise (sortRel (strToUpper (strTrim "PRICE_DESC")))
      [toResultRow dbW gW2, toResultRow dbW gW1]
  ∧ ((dbW.games.map (·.id)).Nodup →
      ([toResultRow dbW gW2, toResultRow dbW gW1].map (·.gameId)).Nodup) :=
  have h := search_sort_order_C7 dbW
    { startIndex := 0, count := 100, price := some 30000, sortBy := "PRICE_DESC" }
    [toResultRow dbW gW2, toResultRow dbW gW1] 2 (by decide)
  ⟨by decide, h.1, h.2.2.2⟩

lemma game_eq_of_id {games : List Game} (hnd : (games.map (·.id)).Nodup)
    {g1 g2 : Game} (h1 : g1 ∈ games) (h2 : g2 ∈ games) (he : g1.id = g2.id) : g1 = g2 := by
  have f1 := find?_id_of_nodup hnd h1
  have f2 := find?_id_of_nodup hnd h2
  rw [← he] at f2
  rw [f1] at f2
  exact Option.some_inj.mp f2

/-- C1: in every reachable state, a game's creator attempting to review,
wishlist, or own-mark their own game is rejected with the corresponding
error (each mapped to 403 by its controller) and the state is unchanged; and
no reachable state contains a game_review, wishlist, or owned row whose
user equals the creator of the referenced game. -/
theorem creator_exclusion_C1 (db0 db : DB) (hreach : Reachable db0 db) (hinv : Inv db0)
    (g : Game) (hg : g ∈ db.games) (rating : Int) (rev : Option String) (ts : Nat) :
    (addReview db g.creatorId g.id rating rev ts = .error "Cannot review your own game"
      ∧ applyE db (addReview db g.creatorId g.id rating rev ts) = db
      ∧ addGameReviewStatus "Cannot review your own game" = 403)
  ∧ (addGameToWishlistModel db g.creatorId g.id = .error "Cannot wishlist a game you created"
      ∧ applyE db (addGameToWishlistModel db g.creatorId g.id) = db
      ∧ addGameToWishlistStatus "Cannot wishlist a game you created" = 403)
  ∧ (addGameToOwnedModel db g.creatorId g.id = .error "Cannot mark a game you created as owned"
      ∧ applyE db (addGameToOwnedModel db g.creatorId g.id) = db
      ∧ addGameToOwnedStatus "Cannot mark a game you created as owned" = 403)
  ∧ (∀ r ∈ db.reviews, ∀ g2 ∈ db.games, g2.id = r.gameId → r.userId ≠ g2.creatorId)
  ∧ (∀ w ∈ db.wishlist, ∀ g2 ∈ db.games, g2.id = w.1 → w.2 ≠ g2.creatorId)
  ∧ (∀ o ∈ db.owned, ∀ g2 ∈ db.games, g2.id = o.1 → o.2 ≠ g2.creatorId) := by
  have hI := reachable_inv hreach hinv
  have hfind : db.games.find? (fun x => x.id == g.id) = some g :=
    find?_id_of_nodup hI.idsNodup hg
  have hcid : getGameCreatorId db g.id = some g.creatorId := by
    simp [getGameCreatorId, hfind]
  have hrev : addReview db g.creatorId g.id rating rev ts
      = .error "Cannot review your own game" := by
    simp [addReview, hfind]
  have hwish : addGameToWishlistModel db g.creatorId g.id
      = .error "Cannot wishlist a game you created" := by
    simp [addGameToWishlistModel, hcid]
  have hown : addGameToOwnedModel db g.creatorId g.id
      = .error "Cannot mark a game you created as owned" := by
    simp [addGameToOwnedModel, hcid]
  refine ⟨⟨hrev, by rw [hrev]; rfl, by decide⟩,
          ⟨hwish, by rw [hwish]; rfl, by decide⟩,
          ⟨hown, by rw [hown]; rfl, by decide⟩, ?_, ?_, ?_⟩
  · intro r hr g2 hg2 hid hcontra
    obtain ⟨g1, hg1, hgid1, hgne1⟩ := hI.revOk r hr
    have : g1 = g2 := game_eq_of_id hI.idsNodup hg1 hg2 (hgid1.trans hid.symm)
    exact hgne1 (by rw [this, ← hcontra])
  · intro w hw g2 hg2 hid hcontra
    obtain ⟨g1, hg1, hgid1, hgne1⟩ := hI.wishOk w hw
    have : g1 = g2 := game_eq_of_id hI.idsNodup hg1 hg2 (hgid1.trans hid.symm)
    exact hgne1 (by rw [this, ← hcontra])
  · intro o ho g2 hg2 hid hcontra
    obtain ⟨g1, hg1, hgid1, hgne1⟩ := hI.ownOk o ho
    have : g1 = g2 := game_eq_of_id hI.idsNodup hg1 hg2 (hgid1.trans hid.symm)
    exact hgne1 (by rw [this, ← hcontra])

/-- The sample database satisfies the invariant. -/
lemma inv_dbW : Inv dbW :=
  ⟨by decide, by decide, by decide, by decide, by decide, by decide, by decide⟩

/-- C1 witness: in the sample database, user 1 (creator of game 1) is
rejected on all three self-actions. -/
theorem creator_exclusion_C1_witness :
    Reachable dbW dbW ∧ Inv dbW ∧ gW1 ∈ dbW.games
  ∧ addReview dbW gW1.creatorId gW1.id 5 none 0 = .error "Cannot review your own game"
  ∧ addGameToWishlistModel dbW gW1.creatorId gW1.id
      = .error "Cannot wishlist a game you created"
  ∧ addGameToOwnedModel dbW gW1.creatorId gW1.id
      = .error "Cannot mark a game you created as owned" :=
  have h := creator_exclusion_C1 dbW dbW .refl inv_dbW gW1 (by decide) 5 none 0
  ⟨.refl, inv_dbW, by decide, h.1.1, h.2.1.1, h.2.2.1.1⟩

/-- C5: in every reachable state no (game, user) pair is simultaneously
wishlisted and owned; a wishlist add on an owned pair is rejected with
"Cannot wishlist a game you have marked as owned"; and a successful owned
add always leaves the pair absent from the wishlist (an existing wishlist
row is deleted before the owned insert). -/
theorem wishlist_owned_disjoint_C5 (db0 db : DB) (hreach : Reachable db0 db)
    (hinv : Inv db0) (gid uid : Nat) :
    ¬((gid, uid) ∈ db.wishlist ∧ (gid, uid) ∈ db.owned)
  ∧ ((gid, uid) ∈ db.owned →
      addGameToWishlistModel db uid gid
        = .error "Cannot wishlist a game you have marked as owned")
  ∧ (∀ db2, addGameToOwnedModel db uid gid = .ok db2 → (gid, uid) ∉ db2.wishlist) := by
  have hI := reachable_inv hreach hinv
  refine ⟨fun hcontra => hI.disjointWO _ hcontra.1 hcontra.2, ?_, ?_⟩
  · intro ho
    obtain ⟨g, hgmem, hgid, hgne⟩ := hI.ownOk (gid, uid) ho
    have hgid2 : g.id = gid := hgid
    have hgne2 : g.creatorId ≠ uid := hgne
    have hfind : db.games.find? (fun x => x.id == gid) = some g := by
      rw [← hgid2]
      exact find?_id_of_nodup hI.idsNodup hgmem
    have hcid : getGameCreatorId db gid = some g.creatorId := by
      simp [getGameCreatorId, hfind]
    have howned : isGameOwnedByUser db uid gid = true := by
      unfold isGameOwnedByUser
      rw [List.any_eq_true]
      exact ⟨(gid, uid), ho, by simp⟩
    have hne : (g.creatorId == uid) = false := beq_eq_false_iff_ne.mpr hgne2
    simp [addGameToWishlistModel, hcid, hne, howned]
  · intro db2 hok
    unfold addGameToOwnedModel at hok
    rcases hc : getGameCreatorId db gid with _ | c
    · simp [hc] at hok
    · cases hcu : (c == uid) with
      | true => simp [hc, hcu] at hok
      | false =>
        cases how : isGameOwnedByUser db uid gid with
        | true =>
          simp [hc, hcu, how] at hok
          subst hok
          intro hw
          have ho : (gid, uid) ∈ db.owned := by
            unfold isGameOwnedByUser at how
            rw [List.any_eq_true] at how
            obtain ⟨p, hp, hpp⟩ := how
            have : p = (gid, uid) := by
              obtain ⟨p1, p2⟩ := p
              simp at hpp
              simp [hpp.1, hpp.2]
            exact this ▸ hp
          exact hI.disjointWO _ hw ho
        | false =>
          cases hww : isGameWishlistedByUser db uid gid with
          | true =>
            simp [hc, hcu, how, hww] at hok
            subst hok
            intro hw
            have := List.of_mem_filter hw
            simp at this
          | false =>
            simp [hc, hcu, how, hww] at hok
            subst hok
            exact not_wishlisted_of_check hww

/-- Sample database where user 2 owns game 1. -/
def dbO : DB :=
  { dbW with owned := [(1, 2)] }

/-- The owned-pair sample database satisfies the invariant. -/
lemma inv_dbO : Inv dbO :=
  ⟨by decide, by decide, by decide, by decide, by decide, by decide, by decide⟩

/-- C5 witness: with game 1 owned by user 2, the wishlist add is rejected,
and a successful owned add never leaves the pair wishlisted. -/
theorem wishlist_owned_disjoint_C5_witness :
    Reachable dbO dbO ∧ Inv dbO
  ∧ ¬((1, 2) ∈ dbO.wishlist ∧ (1, 2) ∈ dbO.owned)
  ∧ (1, 2) ∈ dbO.owned
  ∧ addGameToWishlistModel dbO 2 1
      = .error "Cannot wishlist a game you have marked as owned"
  ∧ (∀ db2, addGameToOwnedModel dbO 2 1 = .ok db2 → (1, 2) ∉ db2.wishlist) :=
  have h := wishlist_owned_disjoint_C5 dbO dbO .refl inv_dbO 1 2
  ⟨.refl, inv_dbO, h.1, by decide, h.2.1 (by decide), h.2.2⟩

/-- C9: in every reachable state a second `addReview` by a user who already
reviewed the game is rejected with "Can only review a game once" (mapped to
403), inserting nothing; consequently review (game, user) keys are unique. -/
theorem review_once_C9 (db0 db : DB) (hreach : Reachable db0 db) (hinv : Inv db0)
    (gid uid : Nat) (rating : Int) (rev : Option String) (ts : Nat)
    (hr : ∃ r ∈ db.reviews, r.gameId = gid ∧ r.userId = uid) :
    addReview db uid gid rating rev ts = .error "Can only review a game once"
  ∧ applyE db (addReview db uid gid rating rev ts) = db
  ∧ addGameReviewStatus "Can only review a game once" = 403
  ∧ List.Pairwise (fun r1 r2 => ¬(r1.gameId = r2.gameId ∧ r1.userId = r2.userId))
      db.reviews := by
  have hI := reachable_inv hreach hinv
  obtain ⟨r, hrmem, hrg, hru⟩ := hr
  obtain ⟨g, hgmem, hgid, hgne⟩ := hI.revOk r hrmem
  have hfind : db.games.find? (fun x => x.id == gid) = some g := by
    rw [← hrg, ← hgid]
    exact find?_id_of_nodup hI.idsNodup hgmem
  have hne : (g.creatorId == uid) = false :=
    beq_eq_false_iff_ne.mpr (by rw [← hru]; exact hgne)
  have hdup : (db.reviews.any (fun x => x.gameId == gid && x.userId == uid)) = true := by
    rw [List.any_eq_true]
    exact ⟨r, hrmem, by simp [hrg, hru]⟩
  have herr : addReview db uid gid rating rev ts = .error "Can only review a game once" := by
    simp [addReview, hfind, hne, hdup]
  exact ⟨herr, by rw [herr]; rfl, by decide, hI.revKeyNodup⟩

/-- The reviewed sample database satisfies the invariant. -/
lemma inv_dbR : Inv dbR :=
  ⟨by decide, by decide, by decide, by decide, by decide, by decide, by decide⟩

/-- C9 witness: user 2 already reviewed game 1 in `dbR`; a second review is
rejected with 403 and the review keys of `dbR` are unique. -/
theorem review_once_C9_witness :
    Reachable dbR dbR ∧ Inv dbR
  ∧ (∃ r ∈ dbR.reviews, r.gameId = 1 ∧ r.userId = 2)
  ∧ addReview dbR 2 1 7 none 99 = .error "Can only review a game once"
  ∧ addGameReviewStatus "Can only review a game once" = 403 :=
  have h := review_once_C9 dbR dbR .refl inv_dbR 1 2 7 none 99 (by decide)
  ⟨.refl, inv_dbR, by decide, h.1, h.2.2.1⟩

end GameApi
